import Mathlib

/-!
GstBufferPool (gst/gstbufferpool.c)

A shallow embedding of the buffer pool base class and the theorems that settle
the claims of its specification.

Conventions of the embedding

* A C pointer to a buffer is an `Option GstBuffer`; `none` is `NULL`.
* Addresses are natural numbers below `2 ^ (8 * GLIB_SIZEOF_VOID_P)`; `0` is `NULL`.
* `guint` arithmetic wraps modulo `2 ^ 32`.
* `gint` arithmetic wraps modulo `2 ^ 32` into the range from `G_MININT` to
  `G_MAXINT`: the atomic counter `outstanding` is a `gint`.
* The control count of the `GstPoll` is a mathematical integer.
* The code is run by one thread: a call that parks in `gst_poll_wait` without a
  pending control byte does not return.
-/

namespace Gst

/-! ## Types declared outside gstbufferpool.c -/

/-- Facts of the build that the source uses and that are declared in headers or
libraries outside it: the width of a pointer, the value of the `WAIT` flag and
the addresses `g_malloc` hands out (the n-th call, asked for `size` bytes). -/
structure Env where
  GLIB_SIZEOF_VOID_P : Nat
  GST_BUFFER_POOL_FLAG_WAIT : Nat
  g_malloc : Nat → Nat → Nat

/-- Largest value of the C type `guint` (32 bits). -/
def G_MAXUINT : Nat := 2 ^ 32 - 1

/-- Conversion to `guint`: reduction modulo `2 ^ 32`. -/
def guint (n : Nat) : Nat := n % 2 ^ 32

/-- Largest value of the C type `gint` (32 bits, two's complement). -/
def G_MAXINT : Int := 2147483647

/-- Smallest value of the C type `gint`. -/
def G_MININT : Int := -2147483648

/-- Conversion to `gint`: the integer between `G_MININT` and `G_MAXINT` that is equal
to `n` modulo `2 ^ 32`. An addition or subtraction on a `gint` counter
(`g_atomic_int_inc`, `g_atomic_int_dec_and_test`) is followed by it. -/
def gint (n : Int) : Int := (n + 2147483648) % 4294967296 - 2147483648

/-- Conversion to `guintptr`, an unsigned integer as wide as a pointer. -/
def guintptr (env : Env) (n : Nat) : Nat := n % 2 ^ (8 * env.GLIB_SIZEOF_VOID_P)

/-- The flow returns the pool uses, from the `GstFlowReturn` enumeration. -/
inductive GstFlowReturn where
  | GST_FLOW_RESEND
  | GST_FLOW_OK
  | GST_FLOW_NOT_LINKED
  | GST_FLOW_WRONG_STATE
  | GST_FLOW_UNEXPECTED
  | GST_FLOW_NOT_NEGOTIATED
  | GST_FLOW_ERROR
  | GST_FLOW_NOT_SUPPORTED
  deriving DecidableEq, Repr

open GstFlowReturn

/-- Modelled from the spec: the external Buffer, "a reference-counted byte region
with queryable and mutable data pointer, size, and a backing-allocation pointer
distinct from data". `malloc_data` is `GST_BUFFER_MALLOCDATA`, `data` is
`GST_BUFFER_DATA`, `size` is `GST_BUFFER_SIZE`. -/
structure GstBuffer where
  malloc_data : Nat
  data : Nat
  size : Nat
  deriving DecidableEq, Repr

/-- Modelled from the spec: `gst_buffer_new` of gstbuffer.c, which is not among the
sources; the spec's allocator step 2 describes the untouched new buffer as one
"with null data and zero size". -/
def gst_buffer_new : GstBuffer := { malloc_data := 0, data := 0, size := 0 }

/-- The quarks the pool uses as names, and any other quark. -/
inductive GstQuark where
  | BUFFER_POOL_CONFIG
  | SIZE
  | MIN_BUFFERS
  | MAX_BUFFERS
  | PREFIX
  | POSTFIX
  | ALIGN
  | other (n : Nat)
  deriving DecidableEq, Repr

/-- A typed value: a `G_TYPE_UINT` or a value of some other type. -/
inductive GValue where
  | uint (v : Nat)
  | other (type : Nat)
  deriving DecidableEq, Repr

/-- Modelled from the spec: the ConfigStore, "a general typed map (extensible by
subclasses with additional keys)"; `GstStructure` of gststructure.c is not among
the sources. -/
structure GstStructure where
  name : GstQuark
  fields : List (GstQuark × GValue)
  deriving DecidableEq, Repr

/-- Modelled from the spec: an empty ConfigStore with the given name
(`gst_structure_id_empty_new`). -/
def gst_structure_id_empty_new (name : GstQuark) : GstStructure :=
  { name := name, fields := [] }

/-- Writes one field of a field list: an existing field of that name is replaced,
otherwise the field is appended. -/
def set_field (q : GstQuark) (v : GValue) :
    List (GstQuark × GValue) → List (GstQuark × GValue)
  | [] => [(q, v)]
  | (k, w) :: rest => if k = q then (q, v) :: rest else (k, w) :: set_field q v rest

/-- Modelled from the spec: ConfigStore `set` of one key (`gst_structure_id_set`
with one field). -/
def gst_structure_id_set (s : GstStructure) (q : GstQuark) (v : GValue) : GstStructure :=
  { s with fields := set_field q v s.fields }

/-- Modelled from the spec: ConfigStore `get` of one `G_TYPE_UINT` key; `none` when
the key is absent or holds another type. -/
def gst_structure_id_get_uint (s : GstStructure) (q : GstQuark) : Option Nat :=
  match s.fields.lookup q with
  | some (GValue.uint v) => some (guint v)
  | _ => none

/-- Modelled from the spec: ConfigStore `copy`, a deep copy. -/
def gst_structure_copy (s : GstStructure) : GstStructure := s

/-- The optional parameters of an acquire. -/
structure GstBufferPoolParams where
  flags : Nat
  deriving DecidableEq, Repr

/-- The memory outside the pool object on which the pool acts: how many blocks
`g_malloc` has handed out, and the buffers given to `gst_buffer_unref`, oldest
first. -/
structure GMem where
  mallocs : Nat
  unreffed : List GstBuffer
  deriving DecidableEq, Repr

/-! ## The pool object -/

/-- The private part of the pool (struct _GstBufferPoolPrivate, without the lock). -/
structure GstBufferPoolPrivate where
  min_buffers : Nat
  max_buffers : Nat
  size : Nat
  prefix_ : Nat
  postfix_ : Nat
  align : Nat
  deriving DecidableEq, Repr

/-- The pool object. `queue` is the GstAtomicQueue, a FIFO of buffer pointers with
its head first; `poll` is the number of control bytes pending on the GstPoll;
`mem` is the memory the pool acts on. -/
structure GstBufferPool where
  active : Bool
  flushing : Bool
  configured : Bool
  outstanding : Int
  queue : List (Option GstBuffer)
  poll : Int
  config : GstStructure
  priv : GstBufferPoolPrivate
  mem : GMem
  deriving DecidableEq, Repr

/-- What a call that may wait gives back: it returned, or it is parked in
`gst_poll_wait` with nothing to wake it, or the iterations allowed to the model
ran out. -/
inductive Outcome where
  | returned (result : GstFlowReturn) (buffer : Option GstBuffer) (pool : GstBufferPool)
  | waiting (pool : GstBufferPool)
  | out_of_fuel
  deriving DecidableEq, Repr

/-- The `alloc_buffer` slot: pool, content of the buffer location, params. -/
abbrev AllocHook :=
  GstBufferPool → Option GstBuffer → Option GstBufferPoolParams →
    GstFlowReturn × Option GstBuffer × GstBufferPool

/-- The `free_buffer` slot. Its contract forbids it to put the buffer back into the
free list; it acts on the memory only. -/
abbrev FreeHook := GMem → GstBuffer → GMem

/-- The class of the pool: six optional slots. A slot whose default reads another
slot of the class (GST_BUFFER_POOL_GET_CLASS) receives that slot as its first
argument. The `acquire_buffer` slot also receives the number of iterations the
model allows it. -/
structure GstBufferPoolClass where
  set_active : Option (Option AllocHook → GstBufferPool → Bool → Bool × GstBufferPool)
  set_config : Option (GstBufferPool → GstStructure → Bool × GstBufferPool)
  acquire_buffer : Option (Option AllocHook → Nat → GstBufferPool → Option GstBuffer →
    Option GstBufferPoolParams → Outcome)
  alloc_buffer : Option AllocHook
  release_buffer : Option (GstBufferPool → GstBuffer → GstBufferPool)
  free_buffer : Option FreeHook

/-! ## GstAtomicQueue and GstPoll -/

/-- Modelled from the spec: FreeList `push`, at the tail of the FIFO. -/
def gst_atomic_queue_push (queue : List (Option GstBuffer)) (data : Option GstBuffer) :
    List (Option GstBuffer) :=
  queue ++ [data]

/-- Modelled from the spec: FreeList `try_pop`, from the head of the FIFO; `NULL`
when the queue is empty. -/
def gst_atomic_queue_pop : List (Option GstBuffer) → Option GstBuffer × List (Option GstBuffer)
  | [] => (none, [])
  | data :: rest => (data, rest)

/-- Modelled from the spec: Waker `signal`, which "increments the credit count". -/
def gst_poll_write_control (pool : GstBufferPool) : GstBufferPool :=
  { pool with poll := pool.poll + 1 }

/-- Modelled from the spec: Waker `consume`, which "decrements the credit count". -/
def gst_poll_read_control (pool : GstBufferPool) : GstBufferPool :=
  { pool with poll := pool.poll - 1 }

/-- Modelled from the spec: Waker `wait` without timeout, which "blocks until credits
are positive" and "does not itself consume credits". With one thread a wait
without credit never ends: `none`. -/
def gst_poll_wait (pool : GstBufferPool) : Option GstBufferPool :=
  if 0 < pool.poll then some pool else none

/-! ## gstbufferpool.c -/

/-- The function `gst_buffer_pool_config_set`: writes the six keys. -/
def gst_buffer_pool_config_set (config : GstStructure)
    (size min_buffers max_buffers prefix_ postfix_ align : Nat) : GstStructure :=
  let c1 := gst_structure_id_set config GstQuark.SIZE (GValue.uint (guint size))
  let c2 := gst_structure_id_set c1 GstQuark.MIN_BUFFERS (GValue.uint (guint min_buffers))
  let c3 := gst_structure_id_set c2 GstQuark.MAX_BUFFERS (GValue.uint (guint max_buffers))
  let c4 := gst_structure_id_set c3 GstQuark.PREFIX (GValue.uint (guint prefix_))
  let c5 := gst_structure_id_set c4 GstQuark.POSTFIX (GValue.uint (guint postfix_))
  gst_structure_id_set c5 GstQuark.ALIGN (GValue.uint (guint align))

/-- The function `gst_buffer_pool_config_get`: reads the six keys in order into the
six locations, whose contents at entry are `out`; it stops with FALSE at the first
key that is absent or not a `G_TYPE_UINT`, leaving the later locations as they
were. -/
def gst_buffer_pool_config_get (config : GstStructure) (out : GstBufferPoolPrivate) :
    Bool × GstBufferPoolPrivate :=
  match gst_structure_id_get_uint config GstQuark.SIZE with
  | none => (false, out)
  | some size =>
    let o1 := { out with size := size }
    match gst_structure_id_get_uint config GstQuark.MIN_BUFFERS with
    | none => (false, o1)
    | some min_buffers =>
      let o2 := { o1 with min_buffers := min_buffers }
      match gst_structure_id_get_uint config GstQuark.MAX_BUFFERS with
      | none => (false, o2)
      | some max_buffers =>
        let o3 := { o2 with max_buffers := max_buffers }
        match gst_structure_id_get_uint config GstQuark.PREFIX with
        | none => (false, o3)
        | some pre =>
          let o4 := { o3 with prefix_ := pre }
          match gst_structure_id_get_uint config GstQuark.POSTFIX with
          | none => (false, o4)
          | some post =>
            let o5 := { o4 with postfix_ := post }
            match gst_structure_id_get_uint config GstQuark.ALIGN with
            | none => (false, o5)
            | some align => (true, { o5 with align := align })

/-- The function `default_free_buffer`: `gst_buffer_unref (buffer)`. -/
def default_free_buffer : FreeHook :=
  fun mem buffer => { mem with unreffed := mem.unreffed ++ [buffer] }

/-- The loop of `flush_buffers` over the entries of the queue: it ends when the pop
returns `NULL`, that is on the empty queue or on a `NULL` entry. -/
def flush_buffers_loop (free_buffer : Option FreeHook) :
    List (Option GstBuffer) → GstBufferPool → GstBufferPool
  | [], pool => { pool with queue := [] }
  | none :: rest, pool => { pool with queue := rest }
  | some buffer :: rest, pool =>
    let p1 := gst_poll_read_control { pool with queue := rest }
    let p2 :=
      match free_buffer with
      | some f => { p1 with mem := f p1.mem buffer }
      | none => p1
    flush_buffers_loop free_buffer rest p2

/-- The function `flush_buffers`: clears the pool. -/
def flush_buffers (free_buffer : Option FreeHook) (pool : GstBufferPool) : GstBufferPool :=
  flush_buffers_loop free_buffer pool.queue pool

/-- The preallocation loop of `default_set_active`, `for (i = min_buffers; i > 0; i--)`. -/
def default_set_active_loop (alloc : AllocHook) : Nat → GstBufferPool → Bool × GstBufferPool
  | 0, pool => (true, pool)
  | i + 1, pool =>
    match alloc pool none none with
    | (result, buffer, p1) =>
      if result ≠ GST_FLOW_OK then (false, p1)
      else
        default_set_active_loop alloc i
          (gst_poll_write_control { p1 with queue := gst_atomic_queue_push p1.queue buffer })

/-- The function `default_set_active`. -/
def default_set_active (alloc_buffer : Option AllocHook) (pool : GstBufferPool)
    (active : Bool) : Bool × GstBufferPool :=
  if active then
    match alloc_buffer with
    | none => (true, pool)
    | some alloc => default_set_active_loop alloc pool.priv.min_buffers pool
  else (true, pool)

/-- The function `gst_buffer_pool_set_active`. -/
def gst_buffer_pool_set_active (klass : GstBufferPoolClass) (pool : GstBufferPool)
    (active : Bool) : Bool × GstBufferPool :=
  if pool.active = active then (true, pool)
  else if !pool.configured then (false, pool)
  else
    let p1 := if !active then gst_poll_write_control { pool with flushing := true } else pool
    let r :=
      match klass.set_active with
      | some f => f klass.alloc_buffer p1 active
      | none => (true, p1)
    if r.1 then
      let p2 := if active then { gst_poll_read_control r.2 with flushing := false } else r.2
      (true, { p2 with active := active })
    else (false, r.2)

/-- The function `default_set_config`: the result of `gst_buffer_pool_config_get` is
not looked at. -/
def default_set_config (pool : GstBufferPool) (config : GstStructure) :
    Bool × GstBufferPool :=
  (true, { pool with priv := (gst_buffer_pool_config_get config pool.priv).2 })

/-- The function `gst_buffer_pool_set_config`; `config` is a pointer. -/
def gst_buffer_pool_set_config (klass : GstBufferPoolClass) (pool : GstBufferPool)
    (config : Option GstStructure) : Bool × GstBufferPool :=
  match config with
  | none => (false, pool)
  | some cfg =>
    if pool.active then (false, pool)
    else if pool.outstanding ≠ 0 then (false, pool)
    else
      let r :=
        match klass.set_config with
        | some f => f pool cfg
        | none => (false, pool)
      if r.1 then (true, { r.2 with config := cfg, configured := true })
      else (false, r.2)

/-- The function `gst_buffer_pool_get_config`: a copy of the stored configuration. -/
def gst_buffer_pool_get_config (pool : GstBufferPool) : GstStructure :=
  gst_structure_copy pool.config

/-- The function `default_alloc_buffer`. The local `align` is `priv->align - 1` in
`guint` arithmetic; `~align` is a `guint` and is widened with zeros before the
bitwise and with the pointer. -/
def default_alloc_buffer (env : Env) : AllocHook :=
  fun pool _ _ =>
    let priv := pool.priv
    let align := guint (priv.align + G_MAXUINT)
    let size := guint (priv.prefix_ + priv.postfix_ + priv.size + align)
    if size > 0 then
      let memptr := guintptr env (env.g_malloc pool.mem.mallocs size)
      let p1 := { pool with mem := { pool.mem with mallocs := pool.mem.mallocs + 1 } }
      let aligned := Nat.land (guintptr env (memptr + align)) (G_MAXUINT - align)
      (GST_FLOW_OK,
        some { malloc_data := memptr, data := guintptr env (aligned + priv.prefix_),
               size := priv.size },
        p1)
    else (GST_FLOW_OK, some gst_buffer_new, pool)

/-- The function `default_acquire_buffer`; `fuel` bounds the iterations of its
`while (TRUE)`. -/
def default_acquire_buffer (env : Env) (alloc_buffer : Option AllocHook) :
    Nat → GstBufferPool → Option GstBuffer → Option GstBufferPoolParams → Outcome
  | 0, _, _, _ => Outcome.out_of_fuel
  | fuel + 1, pool, buffer, params =>
    if pool.flushing then Outcome.returned GST_FLOW_WRONG_STATE buffer pool
    else
      let popped := gst_atomic_queue_pop pool.queue
      let p1 := { pool with queue := popped.2 }
      match popped.1 with
      | some b => Outcome.returned GST_FLOW_OK (some b) (gst_poll_read_control p1)
      | none =>
        if p1.priv.max_buffers = 0 then
          match alloc_buffer with
          | some alloc =>
            match alloc p1 none params with
            | (result, b, p2) => Outcome.returned result b p2
          | none => Outcome.returned GST_FLOW_NOT_SUPPORTED none p1
        else
          match params with
          | some prm =>
            if Nat.land prm.flags env.GST_BUFFER_POOL_FLAG_WAIT = 0 then
              Outcome.returned GST_FLOW_UNEXPECTED none p1
            else
              match gst_poll_wait p1 with
              | none => Outcome.waiting p1
              | some p2 => default_acquire_buffer env alloc_buffer fuel p2 none params
          | none =>
            match gst_poll_wait p1 with
            | none => Outcome.waiting p1
            | some p2 => default_acquire_buffer env alloc_buffer fuel p2 none params

/-- The function `gst_buffer_pool_acquire_buffer`; `buffer` is the content of the
caller's location at entry. `g_atomic_int_inc` adds 1 to the `gint` counter. -/
def gst_buffer_pool_acquire_buffer (klass : GstBufferPoolClass) (fuel : Nat)
    (pool : GstBufferPool) (buffer : Option GstBuffer)
    (params : Option GstBufferPoolParams) : Outcome :=
  match klass.acquire_buffer with
  | some f =>
    match f klass.alloc_buffer fuel pool buffer params with
    | Outcome.returned result b p1 =>
      if result = GST_FLOW_OK ∧ b.isSome then
        Outcome.returned result b { p1 with outstanding := gint (p1.outstanding + 1) }
      else Outcome.returned result b p1
    | Outcome.waiting p1 => Outcome.waiting p1
    | Outcome.out_of_fuel => Outcome.out_of_fuel
  | none => Outcome.returned GST_FLOW_NOT_SUPPORTED buffer pool

/-- The function `default_release_buffer`. -/
def default_release_buffer (pool : GstBufferPool) (buffer : GstBuffer) : GstBufferPool :=
  gst_poll_write_control
    { pool with queue := gst_atomic_queue_push pool.queue (some buffer) }

/-- The function `gst_buffer_pool_release_buffer`; a `NULL` buffer is refused.
`g_atomic_int_dec_and_test` subtracts 1 from the `gint` counter and tells whether
the result is 0. -/
def gst_buffer_pool_release_buffer (klass : GstBufferPoolClass) (pool : GstBufferPool)
    (buffer : Option GstBuffer) : GstBufferPool :=
  match buffer with
  | none => pool
  | some b =>
    let p1 :=
      match klass.release_buffer with
      | some f => f pool b
      | none => pool
    if p1.flushing then
      let p2 := { p1 with outstanding := gint (p1.outstanding - 1) }
      if p2.outstanding = 0 then flush_buffers klass.free_buffer p2 else p2
    else p1

/-- The function `gst_buffer_pool_class_init`: the six default slots. -/
def gst_buffer_pool_class_init (env : Env) : GstBufferPoolClass :=
  { set_active := some default_set_active
    set_config := some default_set_config
    acquire_buffer := some (default_acquire_buffer env)
    alloc_buffer := some (default_alloc_buffer env)
    release_buffer := some default_release_buffer
    free_buffer := some default_free_buffer }

/-- The functions `gst_buffer_pool_new` and `gst_buffer_pool_init`: the instance is
zero-filled by GObject, then the queue, the poll and the default configuration are
created; `default_set_active (pool, FALSE)` changes nothing. -/
def gst_buffer_pool_new (mem : GMem) : GstBufferPool :=
  let pool : GstBufferPool :=
    { active := false, flushing := false, configured := false, outstanding := 0,
      queue := [], poll := 0,
      config := gst_buffer_pool_config_set
        (gst_structure_id_empty_new GstQuark.BUFFER_POOL_CONFIG) 0 0 0 0 0 1,
      priv := { min_buffers := 0, max_buffers := 0, size := 0, prefix_ := 0,
                postfix_ := 0, align := 0 },
      mem := mem }
  (default_set_active none pool false).2

/-! ## Clients of the pool -/

/-- One call of the public interface. -/
inductive Op where
  | set_config (config : GstStructure)
  | set_active (active : Bool)
  | acquire (params : Option GstBufferPoolParams)
  | release (buffer : GstBuffer)
  deriving DecidableEq, Repr

/-- Whether the call is `set_active (TRUE)`. -/
def Op.activates : Op → Bool
  | Op.set_active true => true
  | _ => false

/-- The pool after one call, when the call returns; the caller's buffer location
holds `NULL` at an acquire. -/
def step (klass : GstBufferPoolClass) (fuel : Nat) (pool : GstBufferPool) :
    Op → Option GstBufferPool
  | Op.set_config config => some (gst_buffer_pool_set_config klass pool (some config)).2
  | Op.set_active active => some (gst_buffer_pool_set_active klass pool active).2
  | Op.acquire params =>
    match gst_buffer_pool_acquire_buffer klass fuel pool none params with
    | Outcome.returned _ _ p1 => some p1
    | _ => none
  | Op.release buffer => some (gst_buffer_pool_release_buffer klass pool (some buffer))

/-- The pool after a sequence of calls, when all of them return. -/
def run (klass : GstBufferPoolClass) (fuel : Nat) :
    List Op → GstBufferPool → Option GstBufferPool
  | [], pool => some pool
  | op :: ops, pool =>
    match step klass fuel pool op with
    | none => none
    | some p1 => run klass fuel ops p1

/-- A pool together with the books of its client: the buffers the client holds
(acquired and not yet released), the results of its acquires (oldest first), and
how many buffers it has acquired and released. -/
structure Client where
  pool : GstBufferPool
  held : List GstBuffer
  results : List GstFlowReturn
  acquired : Nat
  released : Nat
  deriving DecidableEq, Repr

/-- A client that has just created its pool. -/
def Client.start (pool : GstBufferPool) : Client :=
  { pool := pool, held := [], results := [], acquired := 0, released := 0 }

/-- One legal call of the client: a release is legal for a buffer the client
holds. `none` when the call is not legal or does not return. -/
def Client.step (klass : GstBufferPoolClass) (fuel : Nat) (c : Client) : Op → Option Client
  | Op.set_config config =>
    some { c with pool := (gst_buffer_pool_set_config klass c.pool (some config)).2 }
  | Op.set_active active =>
    some { c with pool := (gst_buffer_pool_set_active klass c.pool active).2 }
  | Op.acquire params =>
    match gst_buffer_pool_acquire_buffer klass fuel c.pool none params with
    | Outcome.returned result (some b) p1 =>
      if result = GST_FLOW_OK then
        some { c with pool := p1, held := b :: c.held, results := c.results ++ [result],
                      acquired := c.acquired + 1 }
      else some { c with pool := p1, results := c.results ++ [result] }
    | Outcome.returned result none p1 =>
      some { c with pool := p1, results := c.results ++ [result] }
    | _ => none
  | Op.release buffer =>
    if buffer ∈ c.held then
      some { c with pool := gst_buffer_pool_release_buffer klass c.pool (some buffer),
                    held := c.held.erase buffer, released := c.released + 1 }
    else none

/-- A sequence of legal calls of the client. -/
def Client.run (klass : GstBufferPoolClass) (fuel : Nat) : List Op → Client → Option Client
  | [], c => some c
  | op :: ops, c =>
    match c.step klass fuel op with
    | none => none
    | some c1 => Client.run klass fuel ops c1

/-- One round of the benchmark client: an acquire without params and, when it handed
out a buffer, the release of that buffer. -/
def Client.round (klass : GstBufferPoolClass) (fuel : Nat) (c : Client) : Option Client :=
  match c.step klass fuel (Op.acquire none) with
  | none => none
  | some c1 =>
    if c1.acquired = c.acquired then some c1
    else
      match c1.held with
      | [] => some c1
      | b :: _ => c1.step klass fuel (Op.release b)

/-- A number of rounds of the benchmark client, one after the other. -/
def Client.rounds (klass : GstBufferPoolClass) (fuel : Nat) : Nat → Client → Option Client
  | 0, c => some c
  | n + 1, c =>
    match c.round klass fuel with
    | none => none
    | some c1 => Client.rounds klass fuel n c1

/-- The pool after the release of the buffers of a list, first to last. -/
def release_buffers (klass : GstBufferPoolClass) : List GstBuffer → GstBufferPool → GstBufferPool
  | [], pool => pool
  | b :: bs, pool =>
    release_buffers klass bs (gst_buffer_pool_release_buffer klass pool (some b))

/-- A number of acquires in a row into a location holding `NULL`: what each returned
(oldest first) and the pool at the end; `none` when one of them does not return. -/
def acquire_buffers (klass : GstBufferPoolClass) (fuel : Nat)
    (params : Option GstBufferPoolParams) :
    Nat → GstBufferPool → Option (List (GstFlowReturn × Option GstBuffer) × GstBufferPool)
  | 0, pool => some ([], pool)
  | n + 1, pool =>
    match gst_buffer_pool_acquire_buffer klass fuel pool none params with
    | Outcome.returned result b p1 =>
      match acquire_buffers klass fuel params n p1 with
      | some (rs, p2) => some ((result, b) :: rs, p2)
      | none => none
    | _ => none

/-- The free list holds no `NULL` entry. -/
def no_null (queue : List (Option GstBuffer)) : Prop := ∀ e ∈ queue, e ≠ none

instance (queue : List (Option GstBuffer)) : Decidable (no_null queue) := by
  unfold no_null; infer_instance

/-- The configuration carries the six keys, each a `G_TYPE_UINT`: the function
`gst_buffer_pool_config_get` returns TRUE on it. -/
def carries_six_keys (config : GstStructure) : Bool :=
  (gst_buffer_pool_config_get config
    { min_buffers := 0, max_buffers := 0, size := 0, prefix_ := 0, postfix_ := 0,
      align := 0 }).1

/-- Whether every `set_config` of a sequence of calls offers a configuration that
carries the six keys. -/
def Op.six_keys : Op → Bool
  | Op.set_config config => carries_six_keys config
  | _ => true

/-! ## Concrete builds and inputs -/

/-- A 64-bit build whose `g_malloc` hands out blocks 4096 bytes apart. -/
def env64 : Env :=
  { GLIB_SIZEOF_VOID_P := 8, GST_BUFFER_POOL_FLAG_WAIT := 2,
    g_malloc := fun n _ => 4096 * (n + 1) + 8 }

/-- A 32-bit build whose `g_malloc` hands out blocks 4096 bytes apart. -/
def env32 : Env :=
  { GLIB_SIZEOF_VOID_P := 4, GST_BUFFER_POOL_FLAG_WAIT := 2,
    g_malloc := fun n _ => 4096 * (n + 1) + 8 }

/-- The memory before the pool has acted on it. -/
def mem0 : GMem := { mallocs := 0, unreffed := [] }

/-- A configuration with the six keys. -/
def config6 (size min_buffers max_buffers prefix_ postfix_ align : Nat) : GstStructure :=
  gst_buffer_pool_config_set (gst_structure_id_empty_new GstQuark.BUFFER_POOL_CONFIG)
    size min_buffers max_buffers prefix_ postfix_ align

/-- The pool of the flush scenario before its deactivation: configured with
(size=64, min=2, max=2, align=8) and activated on the 64-bit build, its two buffers
handed out. -/
def pool_two_handed_out : GstBufferPool :=
  { active := true, flushing := false, configured := true, outstanding := 2,
    queue := [], poll := -1, config := config6 64 2 2 0 0 8,
    priv := { min_buffers := 2, max_buffers := 2, size := 64, prefix_ := 0,
              postfix_ := 0, align := 8 },
    mem := { mallocs := 2, unreffed := [] } }

/-- The same pool after its deactivation and the release of its first buffer. -/
def pool_one_returned : GstBufferPool :=
  { active := false, flushing := true, configured := true, outstanding := 1,
    queue := [some { malloc_data := 4104, data := 4104, size := 64 }], poll := 1,
    config := config6 64 2 2 0 0 8,
    priv := { min_buffers := 2, max_buffers := 2, size := 64, prefix_ := 0,
              postfix_ := 0, align := 8 },
    mem := { mallocs := 2, unreffed := [] } }

/-- The pool of the preallocation scenario after its activation: configured with
(size=64, min=4, max=4, align=8) and activated on the 64-bit build. -/
def pool_four_idle : GstBufferPool :=
  { active := true, flushing := false, configured := true, outstanding := 0,
    queue := [some { malloc_data := 4104, data := 4104, size := 64 },
              some { malloc_data := 8200, data := 8200, size := 64 },
              some { malloc_data := 12296, data := 12296, size := 64 },
              some { malloc_data := 16392, data := 16392, size := 64 }],
    poll := 3, config := config6 64 4 4 0 0 8,
    priv := { min_buffers := 4, max_buffers := 4, size := 64, prefix_ := 0,
              postfix_ := 0, align := 8 },
    mem := { mallocs := 4, unreffed := [] } }

/-- A 64-bit build whose `g_malloc` hands out blocks above the first 4 GiB of the
address space. -/
def env64_high : Env :=
  { GLIB_SIZEOF_VOID_P := 8, GST_BUFFER_POOL_FLAG_WAIT := 2,
    g_malloc := fun n _ => 2 ^ 32 + 4096 * (n + 1) + 8 }

/-- A new pool with the given configuration, on the given build. -/
def configured_pool (env : Env) (config : GstStructure) : GstBufferPool :=
  (gst_buffer_pool_set_config (gst_buffer_pool_class_init env) (gst_buffer_pool_new mem0)
    (some config)).2

/-! ## Theorems -/

/-! ### The arithmetic of `gint` -/

/-- A value of the type `gint` is left alone by the conversion. -/
theorem gint_of_range (n : Int) (h1 : G_MININT ≤ n) (h2 : n ≤ G_MAXINT) : gint n = n := by
  unfold gint
  unfold G_MININT at h1
  unfold G_MAXINT at h2
  omega

/-- The conversion gives a value of the type `gint`. -/
theorem gint_range (n : Int) : G_MININT ≤ gint n ∧ gint n ≤ G_MAXINT := by
  unfold gint G_MININT G_MAXINT
  omega

/-- Additions on a `gint` counter can be converted once, at the end. -/
theorem gint_add (a b : Int) : gint (gint a + b) = gint (a + b) := by
  unfold gint
  omega

/-- Converting twice is converting once. -/
theorem gint_gint (n : Int) : gint (gint n) = gint n := by
  unfold gint
  omega

/-- Subtractions on a `gint` counter can be converted once, at the end. -/
theorem gint_sub (a b : Int) : gint (gint a - b) = gint (a - b) := by
  unfold gint
  omega

/-- C1. Configure-guard: on an active pool, or one whose `outstanding` is not zero,
`gst_buffer_pool_set_config` returns FALSE and the pool is left exactly as it was,
whatever the class and the configuration offered; so with `outstanding == 1` the
configuration read back with `gst_buffer_pool_get_config` and the six parameters
it reports are the previous ones. -/
theorem set_config_guard (klass : GstBufferPoolClass) (pool : GstBufferPool)
    (config : Option GstStructure) (h : pool.active = true ∨ pool.outstanding ≠ 0) :
    gst_buffer_pool_set_config klass pool config = (false, pool) ∧
    (pool.outstanding = 1 →
      gst_buffer_pool_get_config (gst_buffer_pool_set_config klass pool config).2
          = gst_buffer_pool_get_config pool ∧
      ∀ out, gst_buffer_pool_config_get
          (gst_buffer_pool_get_config (gst_buffer_pool_set_config klass pool config).2) out
        = gst_buffer_pool_config_get (gst_buffer_pool_get_config pool) out) := by
  have key : gst_buffer_pool_set_config klass pool config = (false, pool) := by
    unfold gst_buffer_pool_set_config
    cases config with
    | none => rfl
    | some cfg =>
      rcases h with h | h
      · simp [h]
      · cases hact : pool.active <;> simp [h]
  refine ⟨key, fun _ => ?_⟩
  rw [key]
  exact ⟨rfl, fun _ => rfl⟩

/-- Witness of C1: a pool with one outstanding buffer is offered a new
configuration. -/
theorem set_config_guard_witness :
    ({ gst_buffer_pool_new mem0 with outstanding := 1 } : GstBufferPool).outstanding = 1 ∧
    gst_buffer_pool_set_config (gst_buffer_pool_class_init env64)
        { gst_buffer_pool_new mem0 with outstanding := 1 } (some (config6 64 4 4 0 0 8))
      = (false, { gst_buffer_pool_new mem0 with outstanding := 1 }) :=
  ⟨rfl, (set_config_guard (gst_buffer_pool_class_init env64)
    { gst_buffer_pool_new mem0 with outstanding := 1 } (some (config6 64 4 4 0 0 8))
    (Or.inr (by decide))).1⟩


/-! ### The default hooks -/

theorem default_alloc_buffer_ok (env : Env) (pool : GstBufferPool) (buffer : Option GstBuffer)
    (params : Option GstBufferPoolParams) :
    ∃ b m, default_alloc_buffer env pool buffer params
      = (GST_FLOW_OK, some b, { pool with mem := m }) := by
  unfold default_alloc_buffer
  dsimp only
  split
  · exact ⟨_, _, rfl⟩
  · exact ⟨gst_buffer_new, pool.mem, rfl⟩

/-- A round on a pool that is not flushing and whose free list holds one buffer
takes that buffer and puts it back: `outstanding` grows by one, as a `gint`. -/
theorem round_reuses (env : Env) (c : Client) (b : GstBuffer)
    (hf : c.pool.flushing = false) (hq : c.pool.queue = [some b]) (hh : c.held = []) :
    Client.round (gst_buffer_pool_class_init env) 1 c
      = some { c with pool := { c.pool with outstanding := gint (c.pool.outstanding + 1) },
                      results := c.results ++ [GST_FLOW_OK],
                      acquired := c.acquired + 1, released := c.released + 1 } := by
  obtain ⟨pool, held, results, acquired, released⟩ := c
  obtain ⟨a, f, cf, o, q, pl, cfg, pr, m⟩ := pool
  simp only at hf hq hh
  subst hf hq hh
  simp [Client.round, Client.step, gst_buffer_pool_acquire_buffer, gst_buffer_pool_class_init,
    default_acquire_buffer, gst_atomic_queue_pop, gst_poll_read_control,
    gst_buffer_pool_release_buffer, default_release_buffer, gst_poll_write_control,
    gst_atomic_queue_push]

/-- Any number of such rounds: `outstanding` grows by one at every round, as a
`gint`. -/
theorem rounds_reuse (env : Env) (b : GstBuffer) (n : Nat) :
    ∀ c : Client, c.pool.flushing = false → c.pool.queue = [some b] → c.held = [] →
      gint c.pool.outstanding = c.pool.outstanding →
      Client.rounds (gst_buffer_pool_class_init env) 1 n c
        = some { c with pool := { c.pool with outstanding := gint (c.pool.outstanding + n) },
                        results := c.results ++ List.replicate n GST_FLOW_OK,
                        acquired := c.acquired + n, released := c.released + n } := by
  induction n with
  | zero => intro c _ _ _ hr; simp [Client.rounds, hr]
  | succ n ih =>
    intro c hf hq hh _
    rw [Client.rounds, round_reuses env c b hf hq hh]
    simp only
    rw [ih { c with pool := { c.pool with outstanding := gint (c.pool.outstanding + 1) },
                    results := c.results ++ [GST_FLOW_OK],
                    acquired := c.acquired + 1, released := c.released + 1 } hf hq hh
      (gint_gint _)]
    simp only [List.append_assoc, Nat.cast_add, Nat.cast_one, Option.some.injEq,
      Client.mk.injEq, GstBufferPool.mk.injEq, true_and, and_true]
    refine ⟨?_, ?_, by ring, by ring⟩
    · rw [gint_add]
      congr 1
      ring
    · rw [List.replicate_succ]; rfl

/-- C2. The scenario of the claim, run on the code: configure
(size=1400, min=0, max=0, prefix=0, postfix=0, align=1), activate, then 1000 rounds
of acquire and release. Every acquire returns OK, 1000 buffers were acquired and
1000 released, the client holds none, and `outstanding` is 1000, not 0: the release
of a pool that is not flushing does not decrement it. -/
theorem basic_reuse_outstanding :
    ∃ c : Client,
      (Client.run (gst_buffer_pool_class_init env64) 1
          [Op.set_config (config6 1400 0 0 0 0 1), Op.set_active true]
          (Client.start (gst_buffer_pool_new mem0))).bind
        (Client.rounds (gst_buffer_pool_class_init env64) 1 1000) = some c ∧
      c.results = List.replicate 1000 GST_FLOW_OK ∧
      c.acquired = 1000 ∧ c.released = 1000 ∧ c.held = [] ∧
      c.pool.queue.length = 1 ∧ c.pool.outstanding = 1000 := by
  have h1 : (Client.run (gst_buffer_pool_class_init env64) 1
          [Op.set_config (config6 1400 0 0 0 0 1), Op.set_active true]
          (Client.start (gst_buffer_pool_new mem0))).bind
        (Client.round (gst_buffer_pool_class_init env64) 1)
      = some { pool := { active := true, flushing := false, configured := true,
                         outstanding := 1,
                         queue := [some { malloc_data := 4104, data := 4104, size := 1400 }],
                         poll := 0, config := config6 1400 0 0 0 0 1,
                         priv := { min_buffers := 0, max_buffers := 0, size := 1400,
                                   prefix_ := 0, postfix_ := 0, align := 1 },
                         mem := { mallocs := 1, unreffed := [] } },
               held := [], results := [GST_FLOW_OK], acquired := 1, released := 1 } := by
    decide
  have hs : ∀ c, Client.rounds (gst_buffer_pool_class_init env64) 1 1000 c
      = (Client.round (gst_buffer_pool_class_init env64) 1 c).bind
          (Client.rounds (gst_buffer_pool_class_init env64) 1 999) := by
    intro c
    show Client.rounds _ _ (999 + 1) c = _
    rw [Client.rounds]
    cases Client.round (gst_buffer_pool_class_init env64) 1 c <;> rfl
  have h2 := rounds_reuse env64 { malloc_data := 4104, data := 4104, size := 1400 } 999
    { pool := { active := true, flushing := false, configured := true,
                outstanding := 1,
                queue := [some { malloc_data := 4104, data := 4104, size := 1400 }],
                poll := 0, config := config6 1400 0 0 0 0 1,
                priv := { min_buffers := 0, max_buffers := 0, size := 1400,
                          prefix_ := 0, postfix_ := 0, align := 1 },
                mem := { mallocs := 1, unreffed := [] } },
      held := [], results := [GST_FLOW_OK], acquired := 1, released := 1 } rfl rfl rfl
    (by decide)
  rw [show Client.rounds (gst_buffer_pool_class_init env64) 1 1000
      = fun c => (Client.round (gst_buffer_pool_class_init env64) 1 c).bind
        (Client.rounds (gst_buffer_pool_class_init env64) 1 999) from funext hs,
    ← Option.bind_assoc, h1, Option.some_bind, h2]
  refine ⟨_, rfl, ?_, rfl, rfl, rfl, rfl, ?_⟩
  · exact (List.replicate_succ (n := 999) (a := GST_FLOW_OK)).symm
  · decide


/-- A queue without `NULL` entry is a list of buffers. -/
theorem no_null_iff (queue : List (Option GstBuffer)) :
    no_null queue ↔ ∃ bs : List GstBuffer, queue = bs.map some := by
  induction queue with
  | nil => exact ⟨fun _ => ⟨[], rfl⟩, fun _ e he => by simp at he⟩
  | cons x xs ih =>
    constructor
    · intro h
      obtain ⟨bs, hbs⟩ := ih.mp (fun e he => h e (List.mem_cons_of_mem _ he))
      cases x with
      | none => exact absurd rfl (h none (List.mem_cons_self _ _))
      | some b => exact ⟨b :: bs, by rw [hbs]; rfl⟩
    · rintro ⟨bs, hbs⟩ e he
      rw [hbs] at he
      obtain ⟨b, _, rfl⟩ := List.mem_map.mp he
      simp

/-- The preallocation loop with the default `alloc_buffer` never fails: it appends
as many buffers as asked to the queue and writes as many control bytes. -/
theorem default_set_active_loop_ok (env : Env) (n : Nat) :
    ∀ pool : GstBufferPool, ∃ (bs : List GstBuffer) (m : GMem), bs.length = n ∧
      default_set_active_loop (default_alloc_buffer env) n pool
        = (true, { pool with queue := pool.queue ++ bs.map some, poll := pool.poll + n,
                             mem := m }) := by
  induction n with
  | zero =>
    intro pool
    exact ⟨[], pool.mem, rfl, by simp [default_set_active_loop]⟩
  | succ n ih =>
    intro pool
    obtain ⟨b, m, hb⟩ := default_alloc_buffer_ok env pool none none
    obtain ⟨bs, m2, hlen, hbs⟩ := ih (gst_poll_write_control
      { ({ pool with mem := m } : GstBufferPool) with
        queue := gst_atomic_queue_push pool.queue (some b) })
    refine ⟨b :: bs, m2, by simp [hlen], ?_⟩
    rw [default_set_active_loop, hb]
    simp only [ne_eq, not_true_eq_false, if_false]
    rw [hbs]
    simp [gst_poll_write_control, gst_atomic_queue_push]
    ring

/-- Activation of an inactive configured pool with the default hooks. -/
theorem set_active_true_default (env : Env) (pool : GstBufferPool)
    (ha : pool.active = false) (hc : pool.configured = true) :
    ∃ (bs : List GstBuffer) (m : GMem), bs.length = pool.priv.min_buffers ∧
      gst_buffer_pool_set_active (gst_buffer_pool_class_init env) pool true
        = (true, { pool with queue := pool.queue ++ bs.map some,
                             poll := pool.poll + pool.priv.min_buffers - 1,
                             mem := m, flushing := false, active := true }) := by
  obtain ⟨bs, m, hlen, hbs⟩ := default_set_active_loop_ok env pool.priv.min_buffers pool
  refine ⟨bs, m, hlen, ?_⟩
  simp [gst_buffer_pool_set_active, ha, hc, gst_buffer_pool_class_init, default_set_active,
    hbs, gst_poll_read_control]

/-- Deactivation of an active configured pool, whatever the `alloc_buffer` slot,
with the default `set_active`. -/
theorem set_active_false_default (env : Env) (pool : GstBufferPool)
    (ha : pool.active = true) (hc : pool.configured = true) :
    gst_buffer_pool_set_active (gst_buffer_pool_class_init env) pool false
      = (true, { pool with flushing := true, poll := pool.poll + 1, active := false }) := by
  simp [gst_buffer_pool_set_active, ha, hc, gst_buffer_pool_class_init, default_set_active,
    gst_poll_write_control]

/-- The loop of `flush_buffers` on a queue without `NULL` entry empties it, reads one
control byte for each buffer and gives each buffer to `gst_buffer_unref`. -/
theorem flush_buffers_loop_some (bs : List GstBuffer) :
    ∀ pool : GstBufferPool,
      flush_buffers_loop (some default_free_buffer) (bs.map some) pool
        = { pool with queue := [], poll := pool.poll - bs.length,
                      mem := { pool.mem with unreffed := pool.mem.unreffed ++ bs } } := by
  induction bs with
  | nil => intro pool; simp [flush_buffers_loop]
  | cons b bs ih =>
    intro pool
    rw [List.map_cons, flush_buffers_loop]
    simp only
    rw [ih]
    simp [gst_poll_read_control, default_free_buffer]
    ring


/-- Release on a pool that is not flushing, with the default hooks: the buffer goes
to the tail of the queue, one control byte is written, nothing else changes. -/
theorem release_not_flushing (env : Env) (pool : GstBufferPool) (b : GstBuffer)
    (hf : pool.flushing = false) :
    gst_buffer_pool_release_buffer (gst_buffer_pool_class_init env) pool (some b)
      = { pool with queue := pool.queue ++ [some b], poll := pool.poll + 1 } := by
  simp [gst_buffer_pool_release_buffer, gst_buffer_pool_class_init, default_release_buffer,
    gst_poll_write_control, gst_atomic_queue_push, hf]

/-- Release on a flushing pool whose queue has no `NULL` entry, with the default
hooks. -/
theorem release_flushing (env : Env) (pool : GstBufferPool) (b : GstBuffer)
    (qs : List GstBuffer) (hf : pool.flushing = true) (hq : pool.queue = qs.map some) :
    gst_buffer_pool_release_buffer (gst_buffer_pool_class_init env) pool (some b)
      = if gint (pool.outstanding - 1) = 0 then
          { pool with outstanding := 0, queue := [], poll := pool.poll - qs.length,
                      mem := { pool.mem with unreffed := pool.mem.unreffed ++ (qs ++ [b]) } }
        else
          { pool with outstanding := gint (pool.outstanding - 1),
                      queue := pool.queue ++ [some b], poll := pool.poll + 1 } := by
  have hmap : pool.queue ++ [some b] = (qs ++ [b]).map some := by rw [hq]; simp
  by_cases h0 : gint (pool.outstanding - 1) = 0
  · simp only [gst_buffer_pool_release_buffer, gst_buffer_pool_class_init,
      default_release_buffer, gst_poll_write_control, gst_atomic_queue_push, hf, if_true, h0,
      flush_buffers, hmap]
    rw [flush_buffers_loop_some]
    simp
  · simp [gst_buffer_pool_release_buffer, gst_buffer_pool_class_init,
      default_release_buffer, gst_poll_write_control, gst_atomic_queue_push, hf, h0]

/-- The same, without the details of the drain: the queue still has no `NULL` entry,
and it is empty when the counter has reached 0. -/
theorem release_flushing_step (env : Env) (pool : GstBufferPool) (b : GstBuffer)
    (qs : List GstBuffer) (hf : pool.flushing = true) (hq : pool.queue = qs.map some) :
    ∃ (qs1 : List GstBuffer) (pl : Int) (m : GMem),
      gst_buffer_pool_release_buffer (gst_buffer_pool_class_init env) pool (some b)
        = { pool with outstanding := gint (pool.outstanding - 1), queue := qs1.map some,
                      poll := pl, mem := m } ∧
      (gint (pool.outstanding - 1) = 0 → qs1 = []) := by
  rw [release_flushing env pool b qs hf hq]
  by_cases h0 : gint (pool.outstanding - 1) = 0
  · rw [if_pos h0]
    exact ⟨[], pool.poll - qs.length,
      { pool.mem with unreffed := pool.mem.unreffed ++ (qs ++ [b]) }, by rw [h0]; rfl,
      fun _ => rfl⟩
  · rw [if_neg h0]
    exact ⟨qs ++ [b], pool.poll + 1, pool.mem, by rw [hq]; simp, fun h => absurd h h0⟩

/-- An acquire on a flushing pool returns GST_FLOW_WRONG_STATE at once and touches
neither the pool nor the buffer location. -/
theorem acquire_flushing (env : Env) (fuel : Nat) (pool : GstBufferPool)
    (buffer : Option GstBuffer) (params : Option GstBufferPoolParams)
    (hf : pool.flushing = true) :
    gst_buffer_pool_acquire_buffer (gst_buffer_pool_class_init env) (fuel + 1) pool buffer
      params = Outcome.returned GST_FLOW_WRONG_STATE buffer pool := by
  simp [gst_buffer_pool_acquire_buffer, gst_buffer_pool_class_init, default_acquire_buffer, hf]

/-- An acquire on a pool that is not flushing and whose queue starts with a buffer
takes that buffer, reads one control byte and counts the buffer as outstanding. -/
theorem acquire_pop (env : Env) (fuel : Nat) (pool : GstBufferPool)
    (buffer : Option GstBuffer) (params : Option GstBufferPoolParams) (b : GstBuffer)
    (rest : List (Option GstBuffer)) (hf : pool.flushing = false)
    (hq : pool.queue = some b :: rest) :
    gst_buffer_pool_acquire_buffer (gst_buffer_pool_class_init env) (fuel + 1) pool buffer
      params = Outcome.returned GST_FLOW_OK (some b)
        { pool with queue := rest, poll := pool.poll - 1,
                    outstanding := gint (pool.outstanding + 1) } := by
  simp [gst_buffer_pool_acquire_buffer, gst_buffer_pool_class_init, default_acquire_buffer, hf,
    hq, gst_atomic_queue_pop, gst_poll_read_control]


/-- Releases on a flushing pool whose queue has no `NULL` entry: the counter goes
down by one for each, as a `gint`; the pool stays flushing, the queue keeps out
`NULL`, and it is empty when the counter is 0 after the last release. -/
theorem release_buffers_flushing (env : Env) (bs : List GstBuffer) :
    ∀ (pool : GstBufferPool) (qs : List GstBuffer), bs ≠ [] → pool.flushing = true →
      pool.queue = qs.map some →
      ∃ (qs2 : List GstBuffer) (pl : Int) (m : GMem),
        release_buffers (gst_buffer_pool_class_init env) bs pool
          = { pool with outstanding := gint (pool.outstanding - bs.length),
                        queue := qs2.map some, poll := pl, mem := m } ∧
        (gint (pool.outstanding - bs.length) = 0 → qs2 = []) := by
  induction bs with
  | nil => intro pool qs h; exact absurd rfl h
  | cons b rest ih =>
    intro pool qs _ hf hq
    obtain ⟨qs1, pl1, m1, h1, hz1⟩ := release_flushing_step env pool b qs hf hq
    rw [release_buffers, h1]
    cases rest with
    | nil =>
      refine ⟨qs1, pl1, m1, ?_, ?_⟩
      · simp [release_buffers]
      · simpa using hz1
    | cons b2 rest2 =>
      obtain ⟨qs2, pl2, m2, h2, hz2⟩ := ih
        { pool with outstanding := gint (pool.outstanding - 1), queue := qs1.map some,
                    poll := pl1, mem := m1 } qs1 (List.cons_ne_nil _ _) hf rfl
      have harith : gint (gint (pool.outstanding - 1) - ((b2 :: rest2).length : Int))
          = gint (pool.outstanding - ((b :: b2 :: rest2).length : Int)) := by
        rw [gint_sub]
        congr 1
        simp only [List.length_cons, Nat.cast_add, Nat.cast_one]
        ring
      rw [h2]
      refine ⟨qs2, pl2, m2, ?_, ?_⟩
      · simp only [harith]
      · rw [← harith]
        exact hz2

/-- C3. The cap, run on the code: configure (size=64, min=1, max=1, align=8),
activate, acquire the buffer and release it. The acquire returns OK, the client
holds nothing, the free list holds the buffer, and `outstanding` is still 1, so
`outstanding` plus the length of the free list is 2, above `max_buffers = 1`. -/
theorem cap_exceeded :
    ((Client.run (gst_buffer_pool_class_init env64) 1
          [Op.set_config (config6 64 1 1 0 0 8), Op.set_active true]
          (Client.start (gst_buffer_pool_new mem0))).bind
        (Client.round (gst_buffer_pool_class_init env64) 1)).map
      (fun c => (c.pool.priv.max_buffers, c.results, c.held,
        c.pool.outstanding + (c.pool.queue.length : Int)))
      = some (1, [GST_FLOW_OK], [], 2) := by
  decide

/-- C4, counterexample. With (size=64, min=2, max=2, align=8): (a) activate, acquire
two buffers, deactivate, release both: the free list is empty and `flushing` is
true, not false; (b) activate and deactivate with nothing handed out: no release
follows, and the two preallocated buffers stay in the free list; (c) activate,
acquire, release, acquire, deactivate, release: every buffer handed out has been
released, `outstanding` is 1 and the free list keeps its two buffers. -/
theorem flush_leaves_flushing :
    (Client.run (gst_buffer_pool_class_init env64) 1
        [Op.set_config (config6 64 2 2 0 0 8), Op.set_active true, Op.acquire none,
         Op.acquire none, Op.set_active false,
         Op.release { malloc_data := 4104, data := 4104, size := 64 },
         Op.release { malloc_data := 8200, data := 8200, size := 64 }]
        (Client.start (gst_buffer_pool_new mem0))).map
      (fun c => (c.held, c.pool.queue.length, c.pool.flushing, c.pool.outstanding))
      = some ([], 0, true, 0) ∧
    (Client.run (gst_buffer_pool_class_init env64) 1
        [Op.set_config (config6 64 2 2 0 0 8), Op.set_active true, Op.set_active false]
        (Client.start (gst_buffer_pool_new mem0))).map
      (fun c => (c.held, c.pool.queue.length, c.pool.flushing, c.pool.outstanding))
      = some ([], 2, true, 0) ∧
    (Client.run (gst_buffer_pool_class_init env64) 1
        [Op.set_config (config6 64 2 2 0 0 8), Op.set_active true, Op.acquire none,
         Op.release { malloc_data := 4104, data := 4104, size := 64 },
         Op.acquire none, Op.set_active false,
         Op.release { malloc_data := 8200, data := 8200, size := 64 }]
        (Client.start (gst_buffer_pool_new mem0))).map
      (fun c => (c.held, c.pool.queue.length, c.pool.flushing, c.pool.outstanding))
      = some ([], 2, true, 1) := by
  decide

/-- C4, amended. For every active configured pool whose free list has no `NULL`
entry and whose `outstanding` is the number of buffers handed out, at least one:
`set_active (FALSE)` returns TRUE and, once those buffers have been released, the
free list is empty, `outstanding` is 0, the pool is inactive and `flushing` is
still true. -/
theorem flush_drains (env : Env) (pool : GstBufferPool) (bs : List GstBuffer)
    (ha : pool.active = true) (hc : pool.configured = true) (hq : no_null pool.queue)
    (hne : bs ≠ []) (ho : pool.outstanding = bs.length) :
    (gst_buffer_pool_set_active (gst_buffer_pool_class_init env) pool false).1 = true ∧
    (release_buffers (gst_buffer_pool_class_init env) bs
      (gst_buffer_pool_set_active (gst_buffer_pool_class_init env) pool false).2).queue = [] ∧
    (release_buffers (gst_buffer_pool_class_init env) bs
      (gst_buffer_pool_set_active (gst_buffer_pool_class_init env) pool false).2).outstanding
      = 0 ∧
    (release_buffers (gst_buffer_pool_class_init env) bs
      (gst_buffer_pool_set_active (gst_buffer_pool_class_init env) pool false).2).active
      = false ∧
    (release_buffers (gst_buffer_pool_class_init env) bs
      (gst_buffer_pool_set_active (gst_buffer_pool_class_init env) pool false).2).flushing
      = true := by
  obtain ⟨qs, hqs⟩ := (no_null_iff pool.queue).mp hq
  rw [set_active_false_default env pool ha hc]
  simp only
  obtain ⟨qs2, pl, m, h, hz⟩ := release_buffers_flushing env bs
    { pool with flushing := true, poll := pool.poll + 1, active := false } qs hne rfl hqs
  have h0 : gint (pool.outstanding - (bs.length : Int)) = 0 := by
    rw [ho, sub_self]
    rfl
  rw [h]
  refine ⟨trivial, ?_, h0, rfl, rfl⟩
  show qs2.map some = []
  rw [hz h0]
  rfl

/-- Witness of C4: the pool of the flush scenario before its deactivation, configured
with (size=64, min=2, max=2, align=8), activated, its two buffers handed out. -/
theorem flush_drains_witness :
    run (gst_buffer_pool_class_init env64) 1
        [Op.set_config (config6 64 2 2 0 0 8), Op.set_active true, Op.acquire none,
         Op.acquire none] (gst_buffer_pool_new mem0)
      = some pool_two_handed_out ∧
    (release_buffers (gst_buffer_pool_class_init env64)
      [{ malloc_data := 4104, data := 4104, size := 64 },
       { malloc_data := 8200, data := 8200, size := 64 }]
      (gst_buffer_pool_set_active (gst_buffer_pool_class_init env64) pool_two_handed_out
        false).2).queue = [] :=
  ⟨by decide, (flush_drains env64 pool_two_handed_out
    [{ malloc_data := 4104, data := 4104, size := 64 },
     { malloc_data := 8200, data := 8200, size := 64 }]
    rfl rfl (by decide) (by decide) (by decide)).2.1⟩


/-! ### The arithmetic of `default_alloc_buffer` -/

/-- The local `align` of `default_alloc_buffer` for an alignment `2 ^ k`. -/
theorem guint_align_sub_one (k : Nat) (hk : k < 32) : guint (2 ^ k + G_MAXUINT) = 2 ^ k - 1 := by
  have h1 : 1 ≤ 2 ^ k := Nat.one_le_two_pow
  have h2 : 2 ^ k < 2 ^ 32 := Nat.pow_lt_pow_right (by norm_num) hk
  unfold guint G_MAXUINT
  have h3 : 2 ^ k + (2 ^ 32 - 1) = (2 ^ k - 1) + 2 ^ 32 := by omega
  rw [h3, Nat.add_mod_right, Nat.mod_eq_of_lt (by omega)]

/-- The mask `~align` of `default_alloc_buffer` for an alignment `2 ^ k`. -/
theorem mask_eq (k : Nat) (hk : k < 32) : G_MAXUINT - (2 ^ k - 1) = 2 ^ 32 - 2 ^ k := by
  have h1 : 1 ≤ 2 ^ k := Nat.one_le_two_pow
  have h2 : 2 ^ k < 2 ^ 32 := Nat.pow_lt_pow_right (by norm_num) hk
  unfold G_MAXUINT
  omega

/-- What the mask lets through is a multiple of the alignment. -/
theorem land_mask_mod (x k : Nat) (hk : k < 32) : Nat.land x (2 ^ 32 - 2 ^ k) % 2 ^ k = 0 := by
  have hdvd : (2 ^ 32 - 2 ^ k) % 2 ^ k = 0 := by
    apply Nat.mod_eq_zero_of_dvd
    exact Nat.dvd_sub' (Nat.pow_dvd_pow 2 (Nat.le_of_lt hk)) (dvd_refl _)
  show (x &&& (2 ^ 32 - 2 ^ k)) % 2 ^ k = 0
  rw [← Nat.and_pow_two_sub_one_eq_mod, Nat.and_assoc, Nat.and_pow_two_sub_one_eq_mod, hdvd,
    Nat.and_zero]


/-- C5, counterexample. On the 64-bit build configure (size=100, prefix=16,
postfix=8, align=64), activate and acquire: the block is at 4104, the aligned base
at 4160, and the data pointer of the buffer is 4176, whose remainder modulo 64 is
16, not 0. -/
theorem data_not_aligned :
    (Client.run (gst_buffer_pool_class_init env64) 1
        [Op.set_config (config6 100 0 0 16 8 64), Op.set_active true, Op.acquire none]
        (Client.start (gst_buffer_pool_new mem0))).map
      (fun c => (c.results, c.held.map (fun b => (b.malloc_data, b.data, b.size, b.data % 64))))
      = some ([GST_FLOW_OK], [(4104, 4176, 100, 16)]) := by
  decide

/-- C5, amended. For every configuration whose `align` is a power of two `2 ^ k`
below `2 ^ 32`, on a build with pointers of at least four bytes and for every
address `g_malloc` returns, the default `alloc_buffer` returns GST_FLOW_OK with a
buffer whose data pointer has the remainder of the prefix modulo `align` when a
block is allocated, and is `NULL` when the total is zero: the aligned address is
`data - prefix`, and `data` itself is aligned when `align` divides the prefix. -/
theorem data_alignment (env : Env) (pool : GstBufferPool) (buffer : Option GstBuffer)
    (params : Option GstBufferPoolParams) (k : Nat) (hw : 4 ≤ env.GLIB_SIZEOF_VOID_P)
    (hk : k < 32) (ha : pool.priv.align = 2 ^ k) :
    ∃ b p1, default_alloc_buffer env pool buffer params = (GST_FLOW_OK, some b, p1) ∧
      b.data % pool.priv.align =
        (if 0 < guint (pool.priv.prefix_ + pool.priv.postfix_ + pool.priv.size
            + (pool.priv.align - 1))
        then pool.priv.prefix_ % pool.priv.align else 0) ∧
      (guint (pool.priv.prefix_ + pool.priv.postfix_ + pool.priv.size
          + (pool.priv.align - 1)) = 0 → b.data = 0) := by
  have hdvd : 2 ^ k ∣ 2 ^ (8 * env.GLIB_SIZEOF_VOID_P) :=
    Nat.pow_dvd_pow 2 (by omega)
  unfold default_alloc_buffer
  dsimp only
  rw [ha, guint_align_sub_one k hk, mask_eq k hk]
  split
  · rename_i h
    refine ⟨_, _, rfl, ?_, fun h0 => absurd h0 (Nat.pos_iff_ne_zero.mp h)⟩
    show guintptr env _ % 2 ^ k = _
    unfold guintptr
    rw [Nat.mod_mod_of_dvd _ hdvd, Nat.add_mod, land_mask_mod _ k hk, Nat.zero_add,
      Nat.mod_mod]
  · rename_i h
    exact ⟨_, _, rfl, rfl, fun _ => rfl⟩

/-- Witness of C5: the configuration (size=100, prefix=16, postfix=8, align=64) on
the 64-bit build. -/
theorem data_alignment_witness :
    ∃ b p1, default_alloc_buffer env64
        (gst_buffer_pool_set_config (gst_buffer_pool_class_init env64)
          (gst_buffer_pool_new mem0) (some (config6 100 0 0 16 8 64))).2 none none
        = (GST_FLOW_OK, some b, p1) ∧
      b.data % 64 = (if 0 < guint (16 + 8 + 100 + (64 - 1)) then 16 % 64 else 0) ∧
      (guint (16 + 8 + 100 + (64 - 1)) = 0 → b.data = 0) :=
  data_alignment env64
    (gst_buffer_pool_set_config (gst_buffer_pool_class_init env64)
      (gst_buffer_pool_new mem0) (some (config6 100 0 0 16 8 64))).2 none none 6
    (by decide) (by decide) (by decide)

/-- One iteration of `default_acquire_buffer` that finds the queue empty and
`max_buffers` at 0: the result is that of the `alloc_buffer` slot. -/
theorem default_acquire_alloc (env : Env) (alloc : AllocHook) (fuel : Nat)
    (pool : GstBufferPool) (buffer : Option GstBuffer) (params : Option GstBufferPoolParams)
    (hf : pool.flushing = false) (hq : pool.queue = []) (hmax : pool.priv.max_buffers = 0) :
    default_acquire_buffer env (some alloc) (fuel + 1) pool buffer params
      = Outcome.returned (alloc pool none params).1 (alloc pool none params).2.1
          (alloc pool none params).2.2 := by
  rw [default_acquire_buffer]
  rw [if_neg (by rw [hf]; exact Bool.false_ne_true)]
  dsimp only
  rw [hq, if_pos hmax]
  have hp : ({ pool with queue := (gst_atomic_queue_pop []).2 } : GstBufferPool) = pool := by
    rw [← hq]
    cases pool
    subst hq
    rfl
  rw [hp]
  rfl

/-- An acquire on a pool that is not flushing, whose queue is empty and whose
`max_buffers` is 0 allocates a buffer with the default `alloc_buffer`. -/
theorem acquire_alloc (env : Env) (fuel : Nat) (pool : GstBufferPool)
    (buffer : Option GstBuffer) (params : Option GstBufferPoolParams)
    (hf : pool.flushing = false) (hq : pool.queue = []) (hmax : pool.priv.max_buffers = 0) :
    ∃ (b : GstBuffer) (m : GMem),
      gst_buffer_pool_acquire_buffer (gst_buffer_pool_class_init env) (fuel + 1) pool buffer
        params = Outcome.returned GST_FLOW_OK (some b)
          { pool with mem := m, outstanding := gint (pool.outstanding + 1) } := by
  obtain ⟨b, m, hb⟩ := default_alloc_buffer_ok env pool none params
  refine ⟨b, m, ?_⟩
  have h := default_acquire_alloc env (default_alloc_buffer env) fuel pool buffer params hf hq
    hmax
  rw [hb] at h
  simp only [gst_buffer_pool_acquire_buffer, gst_buffer_pool_class_init, h,
    Option.isSome_some, and_self, if_true]

/-- C6. Acquire on a pool that was never activated, run on the code: a new pool is
inactive and not flushing, and with the default hooks its acquire returns
GST_FLOW_OK with a buffer and counts it as outstanding, whatever the params and
whatever address `g_malloc` returns. -/
theorem acquire_on_new_pool (env : Env) (mem : GMem) (fuel : Nat)
    (params : Option GstBufferPoolParams) :
    (gst_buffer_pool_new mem).active = false ∧
    (gst_buffer_pool_new mem).flushing = false ∧
    ∃ b p, gst_buffer_pool_acquire_buffer (gst_buffer_pool_class_init env) (fuel + 1)
        (gst_buffer_pool_new mem) none params = Outcome.returned GST_FLOW_OK (some b) p ∧
      p.outstanding = (gst_buffer_pool_new mem).outstanding + 1 := by
  refine ⟨rfl, rfl, ?_⟩
  obtain ⟨b, m, hb⟩ := acquire_alloc env fuel (gst_buffer_pool_new mem) none params rfl rfl rfl
  exact ⟨b, _, hb, rfl⟩


/-- The loop of `flush_buffers` touches the queue, the control count and the memory
only. -/
theorem flush_buffers_loop_frame (free_buffer : Option FreeHook)
    (queue : List (Option GstBuffer)) :
    ∀ pool : GstBufferPool, ∃ (q : List (Option GstBuffer)) (pl : Int) (m : GMem),
      flush_buffers_loop free_buffer queue pool = { pool with queue := q, poll := pl, mem := m } := by
  induction queue with
  | nil => intro pool; exact ⟨[], pool.poll, pool.mem, rfl⟩
  | cons e rest ih =>
    intro pool
    cases e with
    | none => exact ⟨rest, pool.poll, pool.mem, rfl⟩
    | some b =>
      cases free_buffer with
      | none =>
        obtain ⟨q, pl, m, h⟩ := ih (gst_poll_read_control { pool with queue := rest })
        have hstep : flush_buffers_loop none (some b :: rest) pool
            = flush_buffers_loop none rest (gst_poll_read_control { pool with queue := rest }) :=
          rfl
        exact ⟨q, pl, m, by rw [hstep, h]; rfl⟩
      | some f =>
        obtain ⟨q, pl, m, h⟩ := ih
          { gst_poll_read_control { pool with queue := rest } with
            mem := f (gst_poll_read_control { pool with queue := rest }).mem b }
        have hstep : flush_buffers_loop (some f) (some b :: rest) pool
            = flush_buffers_loop (some f) rest
              { gst_poll_read_control { pool with queue := rest } with
                mem := f (gst_poll_read_control { pool with queue := rest }).mem b } :=
          rfl
        exact ⟨q, pl, m, by rw [hstep, h]; rfl⟩

/-- The function `flush_buffers` leaves `flushing` as it was. -/
theorem flush_buffers_flushing (free_buffer : Option FreeHook) (pool : GstBufferPool) :
    (flush_buffers free_buffer pool).flushing = pool.flushing := by
  obtain ⟨q, pl, m, h⟩ := flush_buffers_loop_frame free_buffer pool.queue pool
  rw [flush_buffers, h]

/-- The function `flush_buffers` leaves `active` as it was. -/
theorem flush_buffers_active (free_buffer : Option FreeHook) (pool : GstBufferPool) :
    (flush_buffers free_buffer pool).active = pool.active := by
  obtain ⟨q, pl, m, h⟩ := flush_buffers_loop_frame free_buffer pool.queue pool
  rw [flush_buffers, h]

/-- With the default hooks, a call other than `set_active (TRUE)` on an inactive
flushing pool leaves it inactive and flushing. -/
theorem step_keeps_flushing (env : Env) (fuel : Nat) (pool p1 : GstBufferPool) (op : Op)
    (hf : pool.flushing = true) (ha : pool.active = false) (hop : op.activates = false)
    (hs : step (gst_buffer_pool_class_init env) fuel pool op = some p1) :
    p1.flushing = true ∧ p1.active = false := by
  cases op with
  | set_config config =>
    simp only [step, Option.some.injEq] at hs
    subst hs
    unfold gst_buffer_pool_set_config
    simp only [ha, Bool.false_eq_true, if_false, gst_buffer_pool_class_init, default_set_config]
    split
    · exact ⟨hf, ha⟩
    · simp [hf, ha]
  | set_active active =>
    cases active with
    | true => simp [Op.activates] at hop
    | false =>
      simp only [step, Option.some.injEq] at hs
      subst hs
      simp [gst_buffer_pool_set_active, ha, hf]
  | acquire params =>
    cases fuel with
    | zero =>
      simp [step, gst_buffer_pool_acquire_buffer, gst_buffer_pool_class_init,
        default_acquire_buffer] at hs
    | succ fuel =>
      simp only [step, acquire_flushing env fuel pool none params hf, Option.some.injEq] at hs
      subst hs
      exact ⟨hf, ha⟩
  | release buffer =>
    simp only [step, Option.some.injEq] at hs
    subst hs
    simp only [gst_buffer_pool_release_buffer, gst_buffer_pool_class_init,
      default_release_buffer, gst_poll_write_control, hf, if_true]
    split
    · rw [flush_buffers_flushing, flush_buffers_active]
      exact ⟨rfl, ha⟩
    · exact ⟨rfl, ha⟩

/-- The same for a sequence of calls. -/
theorem run_keeps_flushing (env : Env) (fuel : Nat) (ops : List Op) :
    ∀ pool p1 : GstBufferPool, pool.flushing = true → pool.active = false →
      (∀ op ∈ ops, op.activates = false) →
      run (gst_buffer_pool_class_init env) fuel ops pool = some p1 →
      p1.flushing = true ∧ p1.active = false := by
  induction ops with
  | nil =>
    intro pool p1 hf ha _ hr
    simp only [run, Option.some.injEq] at hr
    subst hr
    exact ⟨hf, ha⟩
  | cons op ops ih =>
    intro pool p1 hf ha hops hr
    rw [run] at hr
    cases hs : step (gst_buffer_pool_class_init env) fuel pool op with
    | none => rw [hs] at hr; simp at hr
    | some p2 =>
      rw [hs] at hr
      obtain ⟨hf2, ha2⟩ := step_keeps_flushing env fuel pool p2 op hf ha
        (hops op (List.mem_cons_self _ _)) hs
      exact ih p2 p1 hf2 ha2 (fun o ho => hops o (List.mem_cons_of_mem _ ho)) hr

/-- C7. Acquire after deactivation: on every active configured pool,
`set_active (FALSE)` returns TRUE, and after it and any calls other than
`set_active (TRUE)`, an acquire with the default hooks returns GST_FLOW_WRONG_STATE in
its first iteration, whatever the params and the free list, and leaves the pool
(free list, control count, `outstanding`) and the buffer location as they were. -/
theorem acquire_after_deactivation (env : Env) (pool p1 : GstBufferPool) (ops : List Op)
    (fuel1 fuel2 : Nat) (buffer : Option GstBuffer) (params : Option GstBufferPoolParams)
    (ha : pool.active = true) (hc : pool.configured = true)
    (hops : ∀ op ∈ ops, op.activates = false)
    (hr : run (gst_buffer_pool_class_init env) fuel1 ops
      (gst_buffer_pool_set_active (gst_buffer_pool_class_init env) pool false).2 = some p1) :
    (gst_buffer_pool_set_active (gst_buffer_pool_class_init env) pool false).1 = true ∧
    gst_buffer_pool_acquire_buffer (gst_buffer_pool_class_init env) (fuel2 + 1) p1 buffer params
      = Outcome.returned GST_FLOW_WRONG_STATE buffer p1 := by
  rw [set_active_false_default env pool ha hc] at hr ⊢
  obtain ⟨hf, _⟩ := run_keeps_flushing env fuel1 ops _ p1 rfl rfl hops hr
  exact ⟨rfl, acquire_flushing env fuel2 p1 buffer params hf⟩

/-- Witness of C7: the pool of the flush scenario with its two buffers handed out is
deactivated; an acquire and a release follow; the next acquire, with WAIT set,
returns GST_FLOW_WRONG_STATE. -/
theorem acquire_after_deactivation_witness :
    gst_buffer_pool_acquire_buffer (gst_buffer_pool_class_init env64) 1 pool_one_returned
        none (some { flags := 2 })
      = Outcome.returned GST_FLOW_WRONG_STATE none pool_one_returned :=
  (acquire_after_deactivation env64 pool_two_handed_out pool_one_returned
    [Op.acquire none, Op.release { malloc_data := 4104, data := 4104, size := 64 }]
    1 0 none (some { flags := 2 }) rfl rfl (by decide) (by decide)).2


/-- Popping an empty queue leaves the pool as it was. -/
theorem pop_empty (pool : GstBufferPool) (hq : pool.queue = []) :
    ({ pool with queue := (gst_atomic_queue_pop []).2 } : GstBufferPool) = pool := by
  cases pool
  simp only at hq
  subst hq
  rfl

/-- One iteration of `default_acquire_buffer` on a flushing pool. -/
theorem default_acquire_flushing (env : Env) (alloc : Option AllocHook) (fuel : Nat)
    (pool : GstBufferPool) (buffer : Option GstBuffer) (params : Option GstBufferPoolParams)
    (hf : pool.flushing = true) :
    default_acquire_buffer env alloc (fuel + 1) pool buffer params
      = Outcome.returned GST_FLOW_WRONG_STATE buffer pool := by
  rw [default_acquire_buffer, if_pos hf]

/-- One iteration of `default_acquire_buffer` that finds a buffer in the queue. -/
theorem default_acquire_pop (env : Env) (alloc : Option AllocHook) (fuel : Nat)
    (pool : GstBufferPool) (buffer : Option GstBuffer) (params : Option GstBufferPoolParams)
    (b : GstBuffer) (rest : List (Option GstBuffer))
    (hf : pool.flushing = false) (hq : pool.queue = some b :: rest) :
    default_acquire_buffer env alloc (fuel + 1) pool buffer params
      = Outcome.returned GST_FLOW_OK (some b)
          (gst_poll_read_control { pool with queue := rest }) := by
  rw [default_acquire_buffer, if_neg (by rw [hf]; exact Bool.false_ne_true)]
  dsimp only
  rw [hq]
  rfl

/-- One iteration of `default_acquire_buffer` that finds the queue empty, a cap, and
params without the WAIT flag. -/
theorem default_acquire_no_wait (env : Env) (alloc : Option AllocHook) (fuel : Nat)
    (pool : GstBufferPool) (buffer : Option GstBuffer) (prm : GstBufferPoolParams)
    (hf : pool.flushing = false) (hq : pool.queue = [])
    (hmax : pool.priv.max_buffers ≠ 0)
    (hw : Nat.land prm.flags env.GST_BUFFER_POOL_FLAG_WAIT = 0) :
    default_acquire_buffer env alloc (fuel + 1) pool buffer (some prm)
      = Outcome.returned GST_FLOW_UNEXPECTED none pool := by
  rw [default_acquire_buffer, if_neg (by rw [hf]; exact Bool.false_ne_true)]
  dsimp only
  rw [hq, if_neg hmax, if_pos hw, pop_empty pool hq]
  rfl

/-- One iteration of `default_acquire_buffer` that finds the queue empty, a cap, and
may wait: it waits, and when the wait ends it starts again. -/
theorem default_acquire_wait (env : Env) (alloc : Option AllocHook) (fuel : Nat)
    (pool : GstBufferPool) (buffer : Option GstBuffer) (params : Option GstBufferPoolParams)
    (hf : pool.flushing = false) (hq : pool.queue = [])
    (hmax : pool.priv.max_buffers ≠ 0)
    (hw : ∀ prm, params = some prm → Nat.land prm.flags env.GST_BUFFER_POOL_FLAG_WAIT ≠ 0) :
    default_acquire_buffer env alloc (fuel + 1) pool buffer params
      = match gst_poll_wait pool with
        | none => Outcome.waiting pool
        | some p2 => default_acquire_buffer env alloc fuel p2 none params := by
  rw [default_acquire_buffer, if_neg (by rw [hf]; exact Bool.false_ne_true)]
  dsimp only
  rw [hq, if_neg hmax, pop_empty pool hq]
  cases params with
  | none => rfl
  | some prm =>
    dsimp only
    rw [if_neg (hw prm rfl)]
    rfl


/-- The default `acquire_buffer` returns GST_FLOW_UNEXPECTED only from a pool that is
not flushing, with an empty queue and a cap, to params without the WAIT flag; the
pool is then left as it was and no buffer is returned. -/
theorem default_acquire_unexpected (env : Env) (params : Option GstBufferPoolParams)
    (fuel : Nat) :
    ∀ (pool : GstBufferPool) (buffer b : Option GstBuffer) (p : GstBufferPool),
      no_null pool.queue →
      default_acquire_buffer env (some (default_alloc_buffer env)) fuel pool buffer params
        = Outcome.returned GST_FLOW_UNEXPECTED b p →
      (pool.flushing = false ∧ pool.queue = [] ∧ pool.priv.max_buffers ≠ 0 ∧
        ∃ prm, params = some prm ∧ Nat.land prm.flags env.GST_BUFFER_POOL_FLAG_WAIT = 0) ∧
      b = none ∧ p = pool := by
  induction fuel with
  | zero =>
    intro pool buffer b p _ h
    simp [default_acquire_buffer] at h
  | succ fuel ih =>
    intro pool buffer b p hnn h
    cases hf : pool.flushing with
    | true =>
      rw [default_acquire_flushing env _ fuel pool buffer params hf] at h
      simp at h
    | false =>
      cases hq : pool.queue with
      | cons e rest =>
        cases e with
        | none => exact absurd rfl (hnn none (by rw [hq]; exact List.mem_cons_self _ _))
        | some b1 =>
          rw [default_acquire_pop env _ fuel pool buffer params b1 rest hf hq] at h
          simp at h
      | nil =>
        by_cases hmax : pool.priv.max_buffers = 0
        · rw [default_acquire_alloc env _ fuel pool buffer params hf hq hmax] at h
          obtain ⟨b1, m, hb⟩ := default_alloc_buffer_ok env pool none params
          rw [hb] at h
          simp at h
        · by_cases hw : ∃ prm, params = some prm ∧
              Nat.land prm.flags env.GST_BUFFER_POOL_FLAG_WAIT = 0
          · obtain ⟨prm, hprm, hland⟩ := hw
            subst hprm
            rw [default_acquire_no_wait env _ fuel pool buffer prm hf hq hmax hland] at h
            simp only [Outcome.returned.injEq, true_and] at h
            exact ⟨⟨rfl, rfl, hmax, prm, rfl, hland⟩, h.1.symm, h.2.symm⟩
          · have hw2 : ∀ prm, params = some prm →
                Nat.land prm.flags env.GST_BUFFER_POOL_FLAG_WAIT ≠ 0 :=
              fun prm hprm hland => hw ⟨prm, hprm, hland⟩
            rw [default_acquire_wait env _ fuel pool buffer params hf hq hmax hw2] at h
            unfold gst_poll_wait at h
            split at h
            · simp at h
            · rename_i p2 hp2
              split at hp2
              · simp only [Option.some.injEq] at hp2
                subst hp2
                exact absurd (ih pool none b p hnn h).1.2.2.2 hw
              · simp at hp2


/-- The function `gst_buffer_pool_acquire_buffer` returns GST_FLOW_UNEXPECTED exactly
when the `acquire_buffer` slot does, with the same buffer and pool. -/
theorem acquire_unexpected (env : Env) (fuel : Nat) (pool p : GstBufferPool)
    (buffer b : Option GstBuffer) (params : Option GstBufferPoolParams) :
    gst_buffer_pool_acquire_buffer (gst_buffer_pool_class_init env) fuel pool buffer params
        = Outcome.returned GST_FLOW_UNEXPECTED b p ↔
      default_acquire_buffer env (some (default_alloc_buffer env)) fuel pool buffer params
        = Outcome.returned GST_FLOW_UNEXPECTED b p := by
  simp only [gst_buffer_pool_acquire_buffer, gst_buffer_pool_class_init]
  cases hd : default_acquire_buffer env (some (default_alloc_buffer env)) fuel pool buffer
      params with
  | returned r b1 p1 =>
    dsimp only
    split
    · rename_i hr
      constructor
      · intro h
        simp only [Outcome.returned.injEq] at h
        rw [hr.1] at h
        simp at h
      · intro h
        simp only [Outcome.returned.injEq] at h
        rw [hr.1] at h
        simp at h
    · exact Iff.rfl
  | waiting p1 => simp
  | out_of_fuel => simp

/-- C8. WOULD_BLOCK characterisation, default hooks, on a pool whose free list holds
no `NULL` entry: an acquire that may run at least one iteration returns
GST_FLOW_UNEXPECTED if and only if, at the call, `flushing` is false, the free list is
empty, `max_buffers` is not 0 and params is present without the WAIT flag; it then
returns no buffer and leaves the whole pool (free list, `outstanding`, memory) as it
was; with params absent it never returns GST_FLOW_UNEXPECTED. -/
theorem would_block_iff (env : Env) (pool : GstBufferPool) (buffer : Option GstBuffer)
    (params : Option GstBufferPoolParams) (fuel : Nat) (hq : no_null pool.queue) :
    ((∃ b p, gst_buffer_pool_acquire_buffer (gst_buffer_pool_class_init env) (fuel + 1) pool
          buffer params = Outcome.returned GST_FLOW_UNEXPECTED b p) ↔
      (pool.flushing = false ∧ pool.queue = [] ∧ pool.priv.max_buffers ≠ 0 ∧
        ∃ prm, params = some prm ∧ Nat.land prm.flags env.GST_BUFFER_POOL_FLAG_WAIT = 0)) ∧
    (∀ b p, gst_buffer_pool_acquire_buffer (gst_buffer_pool_class_init env) (fuel + 1) pool
          buffer params = Outcome.returned GST_FLOW_UNEXPECTED b p → b = none ∧ p = pool) ∧
    (∀ b p, gst_buffer_pool_acquire_buffer (gst_buffer_pool_class_init env) (fuel + 1) pool
          buffer none ≠ Outcome.returned GST_FLOW_UNEXPECTED b p) := by
  refine ⟨⟨?_, ?_⟩, ?_, ?_⟩
  · rintro ⟨b, p, h⟩
    exact (default_acquire_unexpected env params (fuel + 1) pool buffer b p hq
      ((acquire_unexpected env (fuel + 1) pool p buffer b params).mp h)).1
  · rintro ⟨hf, hqe, hmax, prm, hprm, hland⟩
    subst hprm
    exact ⟨none, pool, (acquire_unexpected env (fuel + 1) pool pool buffer none _).mpr
      (default_acquire_no_wait env _ fuel pool buffer prm hf hqe hmax hland)⟩
  · intro b p h
    exact (default_acquire_unexpected env params (fuel + 1) pool buffer b p hq
      ((acquire_unexpected env (fuel + 1) pool p buffer b params).mp h)).2
  · intro b p h
    obtain ⟨prm, hprm, _⟩ := (default_acquire_unexpected env none (fuel + 1) pool buffer b p hq
      ((acquire_unexpected env (fuel + 1) pool p buffer b none).mp h)).1.2.2.2
    simp at hprm

/-- Witness of C8: the pool of the flush scenario with its two buffers handed out
and an acquire whose params have no flag. -/
theorem would_block_iff_witness :
    gst_buffer_pool_acquire_buffer (gst_buffer_pool_class_init env64) 1 pool_two_handed_out
        none (some { flags := 0 })
      = Outcome.returned GST_FLOW_UNEXPECTED none pool_two_handed_out ∧
    ((∃ b p, gst_buffer_pool_acquire_buffer (gst_buffer_pool_class_init env64) (0 + 1)
          pool_two_handed_out none (some { flags := 0 })
          = Outcome.returned GST_FLOW_UNEXPECTED b p) ↔
      (pool_two_handed_out.flushing = false ∧ pool_two_handed_out.queue = [] ∧
        pool_two_handed_out.priv.max_buffers ≠ 0 ∧
        ∃ prm, some ({ flags := 0 } : GstBufferPoolParams) = some prm ∧
          Nat.land prm.flags env64.GST_BUFFER_POOL_FLAG_WAIT = 0)) :=
  ⟨by decide, (would_block_iff env64 pool_two_handed_out none (some { flags := 0 }) 0
    (by decide)).1⟩


/-- One iteration of `default_acquire_buffer` whose pop returns `NULL`, with
`max_buffers` at 0. -/
theorem default_acquire_alloc_null (env : Env) (alloc : AllocHook) (fuel : Nat)
    (pool : GstBufferPool) (buffer : Option GstBuffer) (params : Option GstBufferPoolParams)
    (hf : pool.flushing = false) (hq : (gst_atomic_queue_pop pool.queue).1 = none)
    (hmax : pool.priv.max_buffers = 0) :
    default_acquire_buffer env (some alloc) (fuel + 1) pool buffer params
      = Outcome.returned
          (alloc { pool with queue := (gst_atomic_queue_pop pool.queue).2 } none params).1
          (alloc { pool with queue := (gst_atomic_queue_pop pool.queue).2 } none params).2.1
          (alloc { pool with queue := (gst_atomic_queue_pop pool.queue).2 } none params).2.2 := by
  rw [default_acquire_buffer, if_neg (by rw [hf]; exact Bool.false_ne_true)]
  dsimp only
  rw [hq, if_pos hmax]

/-- One iteration of `default_acquire_buffer` whose pop returns `NULL`, with a cap
and params without the WAIT flag. -/
theorem default_acquire_no_wait_null (env : Env) (alloc : Option AllocHook) (fuel : Nat)
    (pool : GstBufferPool) (buffer : Option GstBuffer) (prm : GstBufferPoolParams)
    (hf : pool.flushing = false) (hq : (gst_atomic_queue_pop pool.queue).1 = none)
    (hmax : pool.priv.max_buffers ≠ 0)
    (hw : Nat.land prm.flags env.GST_BUFFER_POOL_FLAG_WAIT = 0) :
    default_acquire_buffer env alloc (fuel + 1) pool buffer (some prm)
      = Outcome.returned GST_FLOW_UNEXPECTED none
          { pool with queue := (gst_atomic_queue_pop pool.queue).2 } := by
  rw [default_acquire_buffer, if_neg (by rw [hf]; exact Bool.false_ne_true)]
  dsimp only
  rw [hq, if_neg hmax, if_pos hw]

/-- One iteration of `default_acquire_buffer` whose pop returns `NULL`, with a cap,
that may wait. -/
theorem default_acquire_wait_null (env : Env) (alloc : Option AllocHook) (fuel : Nat)
    (pool : GstBufferPool) (buffer : Option GstBuffer) (params : Option GstBufferPoolParams)
    (hf : pool.flushing = false) (hq : (gst_atomic_queue_pop pool.queue).1 = none)
    (hmax : pool.priv.max_buffers ≠ 0)
    (hw : ∀ prm, params = some prm → Nat.land prm.flags env.GST_BUFFER_POOL_FLAG_WAIT ≠ 0) :
    default_acquire_buffer env alloc (fuel + 1) pool buffer params
      = match gst_poll_wait { pool with queue := (gst_atomic_queue_pop pool.queue).2 } with
        | none => Outcome.waiting { pool with queue := (gst_atomic_queue_pop pool.queue).2 }
        | some p2 => default_acquire_buffer env alloc fuel p2 none params := by
  rw [default_acquire_buffer, if_neg (by rw [hf]; exact Bool.false_ne_true)]
  dsimp only
  rw [hq, if_neg hmax]
  cases params with
  | none => rfl
  | some prm =>
    dsimp only
    rw [if_neg (hw prm rfl)]

/-- One iteration of `default_acquire_buffer` whose pop returns a buffer. -/
theorem default_acquire_pop_some (env : Env) (alloc : Option AllocHook) (fuel : Nat)
    (pool : GstBufferPool) (buffer : Option GstBuffer) (params : Option GstBufferPoolParams)
    (b : GstBuffer) (hf : pool.flushing = false)
    (hq : (gst_atomic_queue_pop pool.queue).1 = some b) :
    default_acquire_buffer env alloc (fuel + 1) pool buffer params
      = Outcome.returned GST_FLOW_OK (some b)
          (gst_poll_read_control { pool with queue := (gst_atomic_queue_pop pool.queue).2 }) := by
  rw [default_acquire_buffer, if_neg (by rw [hf]; exact Bool.false_ne_true)]
  dsimp only
  rw [hq]


/-- The ways in which the default `acquire_buffer` returns: from a flushing pool; with
the buffer at the head of the queue; with a new buffer; without waiting; or after a
wait that ended, from the next iteration. -/
theorem default_acquire_cases (env : Env) (params : Option GstBufferPoolParams) (fuel : Nat)
    (pool : GstBufferPool) (buffer b : Option GstBuffer) (r : GstFlowReturn)
    (p : GstBufferPool)
    (h : default_acquire_buffer env (some (default_alloc_buffer env)) (fuel + 1) pool buffer
      params = Outcome.returned r b p) :
    (pool.flushing = true ∧ r = GST_FLOW_WRONG_STATE ∧ b = buffer ∧ p = pool) ∨
    (pool.flushing = false ∧ r = GST_FLOW_OK ∧
      ∃ b1, (gst_atomic_queue_pop pool.queue).1 = some b1 ∧ b = some b1 ∧
        p = gst_poll_read_control
          { pool with queue := (gst_atomic_queue_pop pool.queue).2 }) ∨
    (pool.flushing = false ∧ r = GST_FLOW_OK ∧
      (gst_atomic_queue_pop pool.queue).1 = none ∧ pool.priv.max_buffers = 0 ∧
      ∃ (b1 : GstBuffer) (m : GMem), b = some b1 ∧
        p = { pool with queue := (gst_atomic_queue_pop pool.queue).2, mem := m }) ∨
    (pool.flushing = false ∧ r = GST_FLOW_UNEXPECTED ∧
      (gst_atomic_queue_pop pool.queue).1 = none ∧ pool.priv.max_buffers ≠ 0 ∧
      b = none ∧ p = { pool with queue := (gst_atomic_queue_pop pool.queue).2 } ∧
      ∃ prm, params = some prm ∧ Nat.land prm.flags env.GST_BUFFER_POOL_FLAG_WAIT = 0) ∨
    (pool.flushing = false ∧
      (gst_atomic_queue_pop pool.queue).1 = none ∧ pool.priv.max_buffers ≠ 0 ∧
      0 < pool.poll ∧
      default_acquire_buffer env (some (default_alloc_buffer env)) fuel
        { pool with queue := (gst_atomic_queue_pop pool.queue).2 } none params
        = Outcome.returned r b p) := by
  by_cases hft : pool.flushing = true
  · rw [default_acquire_flushing env _ fuel pool buffer params hft] at h
    simp only [Outcome.returned.injEq] at h
    exact Or.inl ⟨hft, h.1.symm, h.2.1.symm, h.2.2.symm⟩
  · have hf : pool.flushing = false := by simpa using hft
    right
    cases hq : (gst_atomic_queue_pop pool.queue).1 with
    | some b1 =>
      rw [default_acquire_pop_some env _ fuel pool buffer params b1 hf hq] at h
      simp only [Outcome.returned.injEq] at h
      exact Or.inl ⟨hf, h.1.symm, b1, rfl, h.2.1.symm, h.2.2.symm⟩
    | none =>
      right
      by_cases hmax : pool.priv.max_buffers = 0
      · rw [default_acquire_alloc_null env _ fuel pool buffer params hf hq hmax] at h
        obtain ⟨b1, m, hb⟩ := default_alloc_buffer_ok env
          { pool with queue := (gst_atomic_queue_pop pool.queue).2 } none params
        rw [hb] at h
        simp only [Outcome.returned.injEq] at h
        exact Or.inl ⟨hf, h.1.symm, rfl, hmax, b1, m, h.2.1.symm, h.2.2.symm⟩
      · right
        by_cases hw : ∃ prm, params = some prm ∧
            Nat.land prm.flags env.GST_BUFFER_POOL_FLAG_WAIT = 0
        · obtain ⟨prm, hprm, hland⟩ := hw
          subst hprm
          rw [default_acquire_no_wait_null env _ fuel pool buffer prm hf hq hmax hland] at h
          simp only [Outcome.returned.injEq] at h
          exact Or.inl ⟨hf, h.1.symm, rfl, hmax, h.2.1.symm, h.2.2.symm, prm, rfl, hland⟩
        · right
          have hw2 : ∀ prm, params = some prm →
              Nat.land prm.flags env.GST_BUFFER_POOL_FLAG_WAIT ≠ 0 :=
            fun prm hprm hland => hw ⟨prm, hprm, hland⟩
          rw [default_acquire_wait_null env _ fuel pool buffer params hf hq hmax hw2] at h
          unfold gst_poll_wait at h
          by_cases hp : 0 < pool.poll
          · rw [if_pos hp] at h
            exact ⟨hf, rfl, hmax, hp, h⟩
          · rw [if_neg hp] at h
            simp at h

/-- The default `acquire_buffer` leaves `outstanding` as it was, whatever the state
of the pool. -/
theorem default_acquire_outstanding (env : Env) (params : Option GstBufferPoolParams)
    (fuel : Nat) :
    ∀ (pool : GstBufferPool) (buffer b : Option GstBuffer) (r : GstFlowReturn)
      (p : GstBufferPool),
      default_acquire_buffer env (some (default_alloc_buffer env)) fuel pool buffer params
        = Outcome.returned r b p →
      p.outstanding = pool.outstanding := by
  induction fuel with
  | zero =>
    intro pool buffer b r p h
    simp [default_acquire_buffer] at h
  | succ fuel ih =>
    intro pool buffer b r p h
    rcases default_acquire_cases env params fuel pool buffer b r p h with
      ⟨_, _, _, hp⟩ | ⟨_, _, _, _, _, hp⟩ | ⟨_, _, _, _, _, _, _, hp⟩ |
      ⟨_, _, _, _, _, hp, _⟩ | ⟨_, _, _, _, hrec⟩
    · rw [hp]
    · rw [hp]; rfl
    · rw [hp]
    · rw [hp]
    · exact ih { pool with queue := (gst_atomic_queue_pop pool.queue).2 } none b r p hrec


/-- C9. Preallocation: on every inactive configured pool, `set_active (TRUE)` with the
default hooks returns TRUE, appends exactly `min_buffers` buffers to the free list
and sets `active` to true and `flushing` to false, so a pool with an empty free list
holds exactly `min_buffers` buffers after it. With (size=64, min=4, max=4, align=8)
the free list holds 4 buffers after the activation; four acquires return OK without
a call of `g_malloc`, and a fifth acquire without the WAIT flag returns
GST_FLOW_UNEXPECTED. -/
theorem preallocation (env : Env) (pool : GstBufferPool)
    (ha : pool.active = false) (hc : pool.configured = true) :
    (∃ (bs : List GstBuffer) (m : GMem), bs.length = pool.priv.min_buffers ∧
      gst_buffer_pool_set_active (gst_buffer_pool_class_init env) pool true
        = (true, { pool with queue := pool.queue ++ bs.map some,
                             poll := pool.poll + pool.priv.min_buffers - 1,
                             mem := m, flushing := false, active := true })) ∧
    (gst_buffer_pool_set_active (gst_buffer_pool_class_init env) pool true).2.queue.length
      = pool.queue.length + pool.priv.min_buffers ∧
    (Client.run (gst_buffer_pool_class_init env64) 1
        [Op.set_config (config6 64 4 4 0 0 8), Op.set_active true]
        (Client.start (gst_buffer_pool_new mem0))).map
      (fun c => (c.pool.queue.length, c.pool.active, c.pool.flushing, c.pool.mem.mallocs))
      = some (4, true, false, 4) ∧
    (Client.run (gst_buffer_pool_class_init env64) 1
        [Op.set_config (config6 64 4 4 0 0 8), Op.set_active true, Op.acquire none,
         Op.acquire none, Op.acquire none, Op.acquire none, Op.acquire (some { flags := 0 })]
        (Client.start (gst_buffer_pool_new mem0))).map
      (fun c => (c.results, c.held.length, c.pool.queue.length, c.pool.mem.mallocs))
      = some ([GST_FLOW_OK, GST_FLOW_OK, GST_FLOW_OK, GST_FLOW_OK, GST_FLOW_UNEXPECTED],
          4, 0, 4) := by
  obtain ⟨bs, m, hlen, hbs⟩ := set_active_true_default env pool ha hc
  refine ⟨⟨bs, m, hlen, hbs⟩, ?_, by decide, by decide⟩
  rw [hbs]
  simp [hlen]

/-- Witness of C9: the new pool configured with (size=64, min=4, max=4, align=8). -/
theorem preallocation_witness :
    (gst_buffer_pool_set_active (gst_buffer_pool_class_init env64)
      (gst_buffer_pool_set_config (gst_buffer_pool_class_init env64)
        (gst_buffer_pool_new mem0) (some (config6 64 4 4 0 0 8))).2 true).2.queue.length
      = (gst_buffer_pool_set_config (gst_buffer_pool_class_init env64)
          (gst_buffer_pool_new mem0) (some (config6 64 4 4 0 0 8))).2.queue.length
        + (gst_buffer_pool_set_config (gst_buffer_pool_class_init env64)
          (gst_buffer_pool_new mem0) (some (config6 64 4 4 0 0 8))).2.priv.min_buffers :=
  (preallocation env64
    (gst_buffer_pool_set_config (gst_buffer_pool_class_init env64)
      (gst_buffer_pool_new mem0) (some (config6 64 4 4 0 0 8))).2 (by decide) (by decide)).2.1

/-- Reading a field that was just written. -/
theorem lookup_set_field_self (q : GstQuark) (v : GValue) (l : List (GstQuark × GValue)) :
    (set_field q v l).lookup q = some v := by
  induction l with
  | nil => simp [set_field, List.lookup]
  | cons e rest ih =>
    obtain ⟨k, w⟩ := e
    by_cases hk : k = q
    · simp [set_field, hk, List.lookup]
    · have hqk : (q == k) = false := by
        rw [beq_eq_false_iff_ne]
        exact fun h => hk h.symm
      simp [set_field, hk, List.lookup, hqk, ih]

/-- Reading a field other than the one that was just written. -/
theorem lookup_set_field_other (q q2 : GstQuark) (v : GValue) (l : List (GstQuark × GValue))
    (h : q2 ≠ q) : (set_field q v l).lookup q2 = l.lookup q2 := by
  induction l with
  | nil =>
    have hq : (q2 == q) = false := by rw [beq_eq_false_iff_ne]; exact h
    simp [set_field, List.lookup, hq]
  | cons e rest ih =>
    obtain ⟨k, w⟩ := e
    by_cases hk : k = q
    · subst hk
      have hq : (q2 == k) = false := by rw [beq_eq_false_iff_ne]; exact h
      simp [set_field, List.lookup, hq]
    · by_cases hq2 : q2 = k
      · subst hq2
        simp [set_field, hk, List.lookup]
      · have hq : (q2 == k) = false := by rw [beq_eq_false_iff_ne]; exact hq2
        simp [set_field, hk, List.lookup, hq, ih]

/-- Reading a `guint` key that was just written. -/
theorem get_uint_set_self (s : GstStructure) (q : GstQuark) (v : Nat) :
    gst_structure_id_get_uint (gst_structure_id_set s q (GValue.uint (guint v))) q
      = some (guint v) := by
  simp [gst_structure_id_get_uint, gst_structure_id_set, lookup_set_field_self, guint]

/-- Reading a key other than the one that was just written. -/
theorem get_uint_set_other (s : GstStructure) (q q2 : GstQuark) (v : GValue) (h : q2 ≠ q) :
    gst_structure_id_get_uint (gst_structure_id_set s q v) q2
      = gst_structure_id_get_uint s q2 := by
  simp [gst_structure_id_get_uint, gst_structure_id_set, lookup_set_field_other q q2 v _ h]

/-- The function `gst_buffer_pool_config_get` reads back what
`gst_buffer_pool_config_set` wrote, as `guint` values, whatever the structure held
before and whatever the six locations held. -/
theorem config_get_config_set (config : GstStructure)
    (size min_buffers max_buffers prefix_ postfix_ align : Nat) (out : GstBufferPoolPrivate) :
    gst_buffer_pool_config_get
        (gst_buffer_pool_config_set config size min_buffers max_buffers prefix_ postfix_ align)
        out
      = (true, { min_buffers := guint min_buffers, max_buffers := guint max_buffers,
                 size := guint size, prefix_ := guint prefix_, postfix_ := guint postfix_,
                 align := guint align }) := by
  simp [gst_buffer_pool_config_get, gst_buffer_pool_config_set, get_uint_set_self,
    get_uint_set_other]

/-- When `gst_buffer_pool_config_get` returns TRUE it writes all six locations, so what
they held before does not matter. -/
theorem config_get_true (config : GstStructure) (out0 out : GstBufferPoolPrivate)
    (h : (gst_buffer_pool_config_get config out0).1 = true) :
    gst_buffer_pool_config_get config out
      = (true, (gst_buffer_pool_config_get config out0).2) := by
  unfold gst_buffer_pool_config_get at h ⊢
  cases h1 : gst_structure_id_get_uint config GstQuark.SIZE <;>
  cases h2 : gst_structure_id_get_uint config GstQuark.MIN_BUFFERS <;>
  cases h3 : gst_structure_id_get_uint config GstQuark.MAX_BUFFERS <;>
  cases h4 : gst_structure_id_get_uint config GstQuark.PREFIX <;>
  cases h5 : gst_structure_id_get_uint config GstQuark.POSTFIX <;>
  cases h6 : gst_structure_id_get_uint config GstQuark.ALIGN <;>
  simp_all

/-- Reading a configuration a second time into the locations it was read into
changes nothing, also when keys are missing. -/
theorem config_get_idem (config : GstStructure) (out : GstBufferPoolPrivate) :
    (gst_buffer_pool_config_get config (gst_buffer_pool_config_get config out).2).2
      = (gst_buffer_pool_config_get config out).2 := by
  unfold gst_buffer_pool_config_get
  cases h1 : gst_structure_id_get_uint config GstQuark.SIZE <;>
  cases h2 : gst_structure_id_get_uint config GstQuark.MIN_BUFFERS <;>
  cases h3 : gst_structure_id_get_uint config GstQuark.MAX_BUFFERS <;>
  cases h4 : gst_structure_id_get_uint config GstQuark.PREFIX <;>
  cases h5 : gst_structure_id_get_uint config GstQuark.POSTFIX <;>
  cases h6 : gst_structure_id_get_uint config GstQuark.ALIGN <;>
  simp_all


/-! ### What each call leaves alone -/

/-- The default `acquire_buffer` touches the queue, the control count and the memory
only. -/
theorem default_acquire_frame (env : Env) (params : Option GstBufferPoolParams)
    (fuel : Nat) :
    ∀ (pool : GstBufferPool) (buffer b : Option GstBuffer) (r : GstFlowReturn)
      (p : GstBufferPool),
      default_acquire_buffer env (some (default_alloc_buffer env)) fuel pool buffer params
        = Outcome.returned r b p →
      p.config = pool.config ∧ p.priv = pool.priv ∧ p.configured = pool.configured ∧
      p.active = pool.active ∧ p.flushing = pool.flushing := by
  induction fuel with
  | zero =>
    intro pool buffer b r p h
    simp [default_acquire_buffer] at h
  | succ fuel ih =>
    intro pool buffer b r p h
    rcases default_acquire_cases env params fuel pool buffer b r p h with
      ⟨_, _, _, hp⟩ | ⟨_, _, _, _, _, hp⟩ | ⟨_, _, _, _, _, _, _, hp⟩ |
      ⟨_, _, _, _, _, hp, _⟩ | ⟨_, _, _, _, hrec⟩
    · rw [hp]; exact ⟨rfl, rfl, rfl, rfl, rfl⟩
    · rw [hp]; exact ⟨rfl, rfl, rfl, rfl, rfl⟩
    · rw [hp]; exact ⟨rfl, rfl, rfl, rfl, rfl⟩
    · rw [hp]; exact ⟨rfl, rfl, rfl, rfl, rfl⟩
    · exact ih { pool with queue := (gst_atomic_queue_pop pool.queue).2 } none b r p hrec

/-- What `gst_buffer_pool_acquire_buffer` returns with the default hooks, in terms of
what the default `acquire_buffer` returns. -/
theorem acquire_returned (env : Env) (fuel : Nat) (pool p : GstBufferPool)
    (buffer b : Option GstBuffer) (params : Option GstBufferPoolParams) (r : GstFlowReturn)
    (h : gst_buffer_pool_acquire_buffer (gst_buffer_pool_class_init env) fuel pool buffer
      params = Outcome.returned r b p) :
    ∃ p1, default_acquire_buffer env (some (default_alloc_buffer env)) fuel pool buffer params
        = Outcome.returned r b p1 ∧
      p = { p1 with outstanding :=
              if r = GST_FLOW_OK ∧ b ≠ none then gint (p1.outstanding + 1)
              else p1.outstanding } := by
  simp only [gst_buffer_pool_acquire_buffer, gst_buffer_pool_class_init] at h
  cases hd : default_acquire_buffer env (some (default_alloc_buffer env)) fuel pool buffer
      params with
  | returned r1 b1 p1 =>
    rw [hd] at h
    dsimp only at h
    by_cases hc : r1 = GST_FLOW_OK ∧ b1.isSome = true
    · rw [if_pos hc] at h
      simp only [Outcome.returned.injEq] at h
      obtain ⟨h1, h2, h3⟩ := h
      subst h1 h2
      refine ⟨p1, rfl, ?_⟩
      rw [if_pos ⟨hc.1, Option.isSome_iff_ne_none.mp hc.2⟩, ← h3]
    · rw [if_neg hc] at h
      simp only [Outcome.returned.injEq] at h
      obtain ⟨h1, h2, h3⟩ := h
      subst h1 h2
      refine ⟨p1, rfl, ?_⟩
      rw [if_neg (fun h => hc ⟨h.1, Option.isSome_iff_ne_none.mpr h.2⟩), ← h3]
  | waiting p1 => rw [hd] at h; simp at h
  | out_of_fuel => rw [hd] at h; simp at h

/-- An acquire with the default hooks leaves the configuration, the private
parameters and the flags alone. -/
theorem acquire_frame (env : Env) (fuel : Nat) (pool p : GstBufferPool)
    (buffer b : Option GstBuffer) (params : Option GstBufferPoolParams) (r : GstFlowReturn)
    (h : gst_buffer_pool_acquire_buffer (gst_buffer_pool_class_init env) fuel pool buffer
      params = Outcome.returned r b p) :
    p.config = pool.config ∧ p.priv = pool.priv ∧ p.configured = pool.configured ∧
    p.active = pool.active ∧ p.flushing = pool.flushing := by
  obtain ⟨p1, hd, hp⟩ := acquire_returned env fuel pool p buffer b params r h
  have hfr := default_acquire_frame env params fuel pool buffer b r p1 hd
  rw [hp]
  exact hfr

/-- A release with the default hooks leaves the configuration, the private parameters
and the flags alone. -/
theorem release_frame (env : Env) (pool : GstBufferPool) (buffer : Option GstBuffer) :
    (gst_buffer_pool_release_buffer (gst_buffer_pool_class_init env) pool buffer).config
      = pool.config ∧
    (gst_buffer_pool_release_buffer (gst_buffer_pool_class_init env) pool buffer).priv
      = pool.priv ∧
    (gst_buffer_pool_release_buffer (gst_buffer_pool_class_init env) pool buffer).configured
      = pool.configured ∧
    (gst_buffer_pool_release_buffer (gst_buffer_pool_class_init env) pool buffer).active
      = pool.active ∧
    (gst_buffer_pool_release_buffer (gst_buffer_pool_class_init env) pool buffer).flushing
      = pool.flushing := by
  cases buffer with
  | none => exact ⟨rfl, rfl, rfl, rfl, rfl⟩
  | some b =>
    by_cases hf : pool.flushing = true
    · simp only [gst_buffer_pool_release_buffer, gst_buffer_pool_class_init,
        default_release_buffer, gst_poll_write_control, hf, if_true]
      split
      · obtain ⟨q, pl, m, h⟩ := flush_buffers_loop_frame (some default_free_buffer)
          (gst_atomic_queue_push pool.queue (some b))
          { active := pool.active, flushing := true, configured := pool.configured,
            outstanding := gint (pool.outstanding - 1),
            queue := gst_atomic_queue_push pool.queue (some b), poll := pool.poll + 1,
            config := pool.config, priv := pool.priv, mem := pool.mem }
        rw [flush_buffers, h]
        exact ⟨rfl, rfl, rfl, rfl, rfl⟩
      · exact ⟨rfl, rfl, rfl, rfl, rfl⟩
    · have hff : pool.flushing = false := by simpa using hf
      rw [release_not_flushing env pool b hff]
      exact ⟨rfl, rfl, rfl, rfl, rfl⟩

/-- With the default hooks `gst_buffer_pool_set_active` touches the queue, the control
count, the memory and the two flags `flushing` and `active` only. -/
theorem set_active_frame (env : Env) (pool : GstBufferPool) (active : Bool) :
    ∃ (q : List (Option GstBuffer)) (pl : Int) (m : GMem) (fl ac : Bool),
      (gst_buffer_pool_set_active (gst_buffer_pool_class_init env) pool active).2
        = { pool with queue := q, poll := pl, mem := m, flushing := fl, active := ac } := by
  by_cases h1 : pool.active = active
  · exact ⟨pool.queue, pool.poll, pool.mem, pool.flushing, pool.active, by
      rw [gst_buffer_pool_set_active, if_pos h1]⟩
  · by_cases h2 : pool.configured = true
    · cases active with
      | true =>
        have ha : pool.active = false := by simpa using h1
        obtain ⟨bs, m, _, hbs⟩ := set_active_true_default env pool ha h2
        exact ⟨_, _, m, false, true, by rw [hbs]⟩
      | false =>
        have ha : pool.active = true := by simpa using h1
        exact ⟨pool.queue, pool.poll + 1, pool.mem, true, false, by
          rw [set_active_false_default env pool ha h2]⟩
    · have h3 : (!pool.configured) = true := by simpa using h2
      exact ⟨pool.queue, pool.poll, pool.mem, pool.flushing, pool.active, by
        rw [gst_buffer_pool_set_active, if_neg h1, if_pos h3]⟩


/-- With the default `set_config`, `gst_buffer_pool_set_config` on an inactive pool
without outstanding buffers adopts the configuration, whatever it holds. -/
theorem set_config_default (env : Env) (pool : GstBufferPool) (config : GstStructure)
    (ha : pool.active = false) (ho : pool.outstanding = 0) :
    gst_buffer_pool_set_config (gst_buffer_pool_class_init env) pool (some config)
      = (true, { pool with priv := (gst_buffer_pool_config_get config pool.priv).2,
                           config := config, configured := true }) := by
  simp [gst_buffer_pool_set_config, gst_buffer_pool_class_init, default_set_config, ha, ho]

/-- With the default hooks a call either leaves the configuration, the private
parameters and `configured` alone, or is a `set_config` that adopts its
configuration. -/
theorem step_config (env : Env) (fuel : Nat) (pool p : GstBufferPool) (op : Op)
    (hs : step (gst_buffer_pool_class_init env) fuel pool op = some p) :
    (p.config = pool.config ∧ p.priv = pool.priv ∧ p.configured = pool.configured) ∨
    (∃ config, op = Op.set_config config ∧ p.config = config ∧
      p.priv = (gst_buffer_pool_config_get config pool.priv).2 ∧ p.configured = true) := by
  cases op with
  | set_config config =>
    simp only [step, Option.some.injEq] at hs
    by_cases hg : pool.active = true ∨ pool.outstanding ≠ 0
    · have hk : gst_buffer_pool_set_config (gst_buffer_pool_class_init env) pool (some config)
          = (false, pool) := by
        unfold gst_buffer_pool_set_config
        rcases hg with hg | hg
        · simp [hg]
        · cases hact : pool.active <;> simp [hg]
      rw [hk] at hs
      subst hs
      exact Or.inl ⟨rfl, rfl, rfl⟩
    · have ha : pool.active = false := by
        cases hact : pool.active
        · rfl
        · exact absurd (Or.inl hact) hg
      have ho : pool.outstanding = 0 := by
        by_contra hne
        exact hg (Or.inr hne)
      rw [set_config_default env pool config ha ho] at hs
      subst hs
      exact Or.inr ⟨config, rfl, rfl, rfl, rfl⟩
  | set_active active =>
    simp only [step, Option.some.injEq] at hs
    obtain ⟨q, pl, m, fl, ac, h⟩ := set_active_frame env pool active
    rw [h] at hs
    subst hs
    exact Or.inl ⟨rfl, rfl, rfl⟩
  | acquire params =>
    simp only [step] at hs
    cases ha : gst_buffer_pool_acquire_buffer (gst_buffer_pool_class_init env) fuel pool none
        params with
    | returned r b p1 =>
      rw [ha] at hs
      simp only [Option.some.injEq] at hs
      subst hs
      obtain ⟨h1, h2, h3, _, _⟩ := acquire_frame env fuel pool p1 none b params r ha
      exact Or.inl ⟨h1, h2, h3⟩
    | waiting p1 => rw [ha] at hs; simp at hs
    | out_of_fuel => rw [ha] at hs; simp at hs
  | release buffer =>
    simp only [step, Option.some.injEq] at hs
    subst hs
    obtain ⟨h1, h2, h3, _, _⟩ := release_frame env pool (some buffer)
    exact Or.inl ⟨h1, h2, h3⟩

/-- In every state a new pool reaches by calls with the default hooks, a configured
pool holds in its private parameters what reading its stored configuration into
them gives. -/
theorem run_config_read (env : Env) (fuel : Nat) (ops : List Op) :
    ∀ pool p : GstBufferPool,
      (pool.configured = true →
        (gst_buffer_pool_config_get pool.config pool.priv).2 = pool.priv) →
      run (gst_buffer_pool_class_init env) fuel ops pool = some p →
      (p.configured = true → (gst_buffer_pool_config_get p.config p.priv).2 = p.priv) := by
  induction ops with
  | nil =>
    intro pool p hinv hr
    simp only [run, Option.some.injEq] at hr
    subst hr
    exact hinv
  | cons op ops ih =>
    intro pool p hinv hr
    rw [run] at hr
    cases hs : step (gst_buffer_pool_class_init env) fuel pool op with
    | none => rw [hs] at hr; simp at hr
    | some p2 =>
      rw [hs] at hr
      refine ih p2 p ?_ hr
      rcases step_config env fuel pool p2 op hs with ⟨h1, h2, h3⟩ | ⟨config, _, h1, h2, _⟩
      · rw [h1, h2, h3]; exact hinv
      · intro _
        rw [h1, h2]
        exact config_get_idem config pool.priv

/-- In every state a new pool reaches by calls with the default hooks whose
configurations carry the six keys, a configured pool holds in its private parameters
the six values of its stored configuration. -/
theorem run_config_six (env : Env) (fuel : Nat) (ops : List Op) :
    ∀ pool p : GstBufferPool,
      (pool.configured = true →
        ∀ out, gst_buffer_pool_config_get pool.config out = (true, pool.priv)) →
      (∀ op ∈ ops, op.six_keys = true) →
      run (gst_buffer_pool_class_init env) fuel ops pool = some p →
      (p.configured = true → ∀ out, gst_buffer_pool_config_get p.config out = (true, p.priv)) := by
  induction ops with
  | nil =>
    intro pool p hinv _ hr
    simp only [run, Option.some.injEq] at hr
    subst hr
    exact hinv
  | cons op ops ih =>
    intro pool p hinv hops hr
    rw [run] at hr
    cases hs : step (gst_buffer_pool_class_init env) fuel pool op with
    | none => rw [hs] at hr; simp at hr
    | some p2 =>
      rw [hs] at hr
      refine ih p2 p ?_ (fun o ho => hops o (List.mem_cons_of_mem _ ho)) hr
      rcases step_config env fuel pool p2 op hs with ⟨h1, h2, h3⟩ | ⟨config, hop, h1, h2, _⟩
      · rw [h1, h2, h3]; exact hinv
      · intro _ out
        have h6 := hops op (List.mem_cons_self _ _)
        rw [hop] at h6
        rw [h1, h2, config_get_true config _ out h6,
          config_get_true config _ pool.priv h6]


/-- C11, counterexample. The new pool is configured with (size=64, min=4, max=4,
align=8) and then with a structure that carries none of the six keys. The second
`gst_buffer_pool_set_config` returns TRUE as well: the pool is configured, its
private parameters are still those of the first configuration, and
`gst_buffer_pool_get_config` returns the structure without keys, on which
`gst_buffer_pool_config_get` returns FALSE and reports no value. With the structure
without keys as only configuration the private parameters are the zeros of the new
pool. -/
theorem config_without_keys :
    (gst_buffer_pool_set_config (gst_buffer_pool_class_init env64)
      (configured_pool env64 (config6 64 4 4 0 0 8))
      (some (gst_structure_id_empty_new GstQuark.BUFFER_POOL_CONFIG))).1 = true ∧
    (run (gst_buffer_pool_class_init env64) 1
        [Op.set_config (config6 64 4 4 0 0 8),
         Op.set_config (gst_structure_id_empty_new GstQuark.BUFFER_POOL_CONFIG)]
        (gst_buffer_pool_new mem0)).map
      (fun p => (p.configured, p.priv, gst_buffer_pool_get_config p,
        gst_buffer_pool_config_get (gst_buffer_pool_get_config p)
          { min_buffers := 0, max_buffers := 0, size := 0, prefix_ := 0, postfix_ := 0,
            align := 0 }))
      = some (true,
          { min_buffers := 4, max_buffers := 4, size := 64, prefix_ := 0, postfix_ := 0,
            align := 8 },
          gst_structure_id_empty_new GstQuark.BUFFER_POOL_CONFIG,
          (false, { min_buffers := 0, max_buffers := 0, size := 0, prefix_ := 0,
                    postfix_ := 0, align := 0 })) ∧
    (run (gst_buffer_pool_class_init env64) 1
        [Op.set_config (gst_structure_id_empty_new GstQuark.BUFFER_POOL_CONFIG)]
        (gst_buffer_pool_new mem0)).map
      (fun p => (p.configured, p.priv,
        carries_six_keys (gst_buffer_pool_get_config p)))
      = some (true,
          { min_buffers := 0, max_buffers := 0, size := 0, prefix_ := 0, postfix_ := 0,
            align := 0 }, false) := by
  decide

/-- C11, amended. Configuration takes effect, default hooks. (1) On every inactive pool with
`outstanding == 0`, `gst_buffer_pool_set_config` with a configuration that carries the
six keys returns TRUE, sets `configured`, stores the configuration, and
`gst_buffer_pool_config_get` on what `gst_buffer_pool_get_config` returns gives the
private parameters of the pool. (2) When the configuration was written by
`gst_buffer_pool_config_set`, those are the six supplied values (as `guint`).
(3) In every state a new pool reaches by calls whose configurations carry the six
keys, a configured pool has as private parameters the six values that
`gst_buffer_pool_get_config` reports. -/
theorem config_takes_effect (env : Env) :
    (∀ (pool : GstBufferPool) (config : GstStructure) (out : GstBufferPoolPrivate),
      pool.active = false → pool.outstanding = 0 → carries_six_keys config = true →
      (gst_buffer_pool_set_config (gst_buffer_pool_class_init env) pool (some config)).1
        = true ∧
      (gst_buffer_pool_set_config (gst_buffer_pool_class_init env) pool
        (some config)).2.configured = true ∧
      gst_buffer_pool_get_config
        (gst_buffer_pool_set_config (gst_buffer_pool_class_init env) pool (some config)).2
        = config ∧
      gst_buffer_pool_config_get (gst_buffer_pool_get_config
        (gst_buffer_pool_set_config (gst_buffer_pool_class_init env) pool (some config)).2) out
        = (true, (gst_buffer_pool_set_config (gst_buffer_pool_class_init env) pool
            (some config)).2.priv)) ∧
    (∀ (pool : GstBufferPool) (base : GstStructure)
      (size min_buffers max_buffers prefix_ postfix_ align : Nat) (out : GstBufferPoolPrivate),
      pool.active = false → pool.outstanding = 0 →
      gst_buffer_pool_config_get (gst_buffer_pool_get_config
        (gst_buffer_pool_set_config (gst_buffer_pool_class_init env) pool
          (some (gst_buffer_pool_config_set base size min_buffers max_buffers prefix_ postfix_
            align))).2) out
        = (true, { min_buffers := guint min_buffers, max_buffers := guint max_buffers,
                   size := guint size, prefix_ := guint prefix_, postfix_ := guint postfix_,
                   align := guint align })) ∧
    (∀ (mem : GMem) (fuel : Nat) (ops : List Op) (p : GstBufferPool)
      (out : GstBufferPoolPrivate),
      (∀ op ∈ ops, op.six_keys = true) →
      run (gst_buffer_pool_class_init env) fuel ops (gst_buffer_pool_new mem) = some p →
      p.configured = true →
      gst_buffer_pool_config_get (gst_buffer_pool_get_config p) out = (true, p.priv)) := by
  refine ⟨?_, ?_, ?_⟩
  · intro pool config out ha ho h6
    rw [set_config_default env pool config ha ho]
    refine ⟨rfl, rfl, rfl, ?_⟩
    show gst_buffer_pool_config_get config out
      = (true, (gst_buffer_pool_config_get config pool.priv).2)
    rw [config_get_true config _ out h6, config_get_true config _ pool.priv h6]
  · intro pool base size min_buffers max_buffers prefix_ postfix_ align out ha ho
    rw [set_config_default env pool _ ha ho]
    exact config_get_config_set base size min_buffers max_buffers prefix_ postfix_ align out
  · intro mem fuel ops p out hops hr hc
    exact run_config_six env fuel ops (gst_buffer_pool_new mem) p
      (fun h => absurd h Bool.false_ne_true) hops hr hc out

/-- Witness of C11: the new pool is configured with (size=64, min=4, max=4, align=8),
and the activated pool of the preallocation scenario holds those values. -/
theorem config_takes_effect_witness :
    gst_buffer_pool_config_get (gst_buffer_pool_get_config
        (gst_buffer_pool_set_config (gst_buffer_pool_class_init env64)
          (gst_buffer_pool_new mem0) (some (config6 64 4 4 0 0 8))).2)
        (gst_buffer_pool_new mem0).priv
      = (true, { min_buffers := guint 4, max_buffers := guint 4, size := guint 64,
                 prefix_ := guint 0, postfix_ := guint 0, align := guint 8 }) ∧
    gst_buffer_pool_config_get (gst_buffer_pool_get_config pool_four_idle)
        (gst_buffer_pool_new mem0).priv = (true, pool_four_idle.priv) :=
  ⟨(config_takes_effect env64).2.1 (gst_buffer_pool_new mem0)
      (gst_structure_id_empty_new GstQuark.BUFFER_POOL_CONFIG) 64 4 4 0 0 8
      (gst_buffer_pool_new mem0).priv rfl rfl,
   (config_takes_effect env64).2.2 mem0 1
      [Op.set_config (config6 64 4 4 0 0 8), Op.set_active true] pool_four_idle
      (gst_buffer_pool_new mem0).priv (by decide) (by decide) rfl⟩


/-- C12. Activation requires configuration: on every pool that is neither configured
nor active, `gst_buffer_pool_set_active (TRUE)` returns FALSE and leaves the whole
pool as it was, whatever the class. -/
theorem activation_requires_configuration (klass : GstBufferPoolClass) (pool : GstBufferPool)
    (hc : pool.configured = false) (ha : pool.active = false) :
    gst_buffer_pool_set_active klass pool true = (false, pool) := by
  simp [gst_buffer_pool_set_active, hc, ha]

/-- Witness of C12: the new pool. -/
theorem activation_requires_configuration_witness :
    gst_buffer_pool_set_active (gst_buffer_pool_class_init env64) (gst_buffer_pool_new mem0)
      true = (false, gst_buffer_pool_new mem0) :=
  activation_requires_configuration (gst_buffer_pool_class_init env64)
    (gst_buffer_pool_new mem0) rfl rfl

/-- C13. Idempotence of `gst_buffer_pool_set_active`: for every pool and boolean,
with the default hooks, the second of two calls in a row leaves the pool as the
first left it; and on a pool whose `active` already is the boolean the call returns
TRUE and changes nothing, whatever the class. -/
theorem set_active_idempotent (env : Env) (klass : GstBufferPoolClass) (pool : GstBufferPool)
    (active : Bool) :
    (gst_buffer_pool_set_active (gst_buffer_pool_class_init env)
        (gst_buffer_pool_set_active (gst_buffer_pool_class_init env) pool active).2 active).2
      = (gst_buffer_pool_set_active (gst_buffer_pool_class_init env) pool active).2 ∧
    (pool.active = active → gst_buffer_pool_set_active klass pool active = (true, pool)) := by
  have hsame : ∀ (k : GstBufferPoolClass) (p : GstBufferPool), p.active = active →
      gst_buffer_pool_set_active k p active = (true, p) := by
    intro k p hp
    rw [gst_buffer_pool_set_active, if_pos hp]
  refine ⟨?_, hsame klass pool⟩
  by_cases h1 : pool.active = active
  · rw [hsame _ pool h1, hsame _ pool h1]
  · by_cases h2 : pool.configured = true
    · cases active with
      | true =>
        have ha : pool.active = false := by simpa using h1
        obtain ⟨bs, m, _, hbs⟩ := set_active_true_default env pool ha h2
        rw [hbs]
        rw [hsame _ _ rfl]
      | false =>
        have ha : pool.active = true := by simpa using h1
        rw [set_active_false_default env pool ha h2]
        rw [hsame _ _ rfl]
    · have h3 : (!pool.configured) = true := by simpa using h2
      have hno : gst_buffer_pool_set_active (gst_buffer_pool_class_init env) pool active
          = (false, pool) := by
        rw [gst_buffer_pool_set_active, if_neg h1, if_pos h3]
      rw [hno, hno]

/-- Witness of C13: the activated pool of the preallocation scenario is activated
again. -/
theorem set_active_idempotent_witness :
    gst_buffer_pool_set_active (gst_buffer_pool_class_init env64) pool_four_idle true
      = (true, pool_four_idle) :=
  (set_active_idempotent env64 (gst_buffer_pool_class_init env64) pool_four_idle true).2 rfl

/-- C14. Round trip of the configuration: in every state a new pool reaches by calls
with the default hooks, on a configured inactive pool
`gst_buffer_pool_set_config (pool, gst_buffer_pool_get_config (pool))` leaves the
whole pool as it was: stored configuration, private parameters, flags,
`outstanding`, free list. -/
theorem set_config_round_trip (env : Env) (mem : GMem) (fuel : Nat) (ops : List Op)
    (p : GstBufferPool)
    (hr : run (gst_buffer_pool_class_init env) fuel ops (gst_buffer_pool_new mem) = some p)
    (hc : p.configured = true) (ha : p.active = false) :
    (gst_buffer_pool_set_config (gst_buffer_pool_class_init env) p
      (some (gst_buffer_pool_get_config p))).2 = p := by
  have hinv := run_config_read env fuel ops (gst_buffer_pool_new mem) p
    (fun h => absurd h Bool.false_ne_true) hr hc
  by_cases ho : p.outstanding = 0
  · rw [set_config_default env p _ ha ho]
    show ({ p with priv := (gst_buffer_pool_config_get p.config p.priv).2, config := p.config,
                   configured := true } : GstBufferPool) = p
    rw [hinv, ← hc]
  · have hk : gst_buffer_pool_set_config (gst_buffer_pool_class_init env) p
        (some (gst_buffer_pool_get_config p)) = (false, p) := by
      unfold gst_buffer_pool_set_config
      simp [ha, ho]
    rw [hk]

/-- Witness of C14: the new pool configured with (size=64, min=4, max=4, align=8). -/
theorem set_config_round_trip_witness :
    (gst_buffer_pool_set_config (gst_buffer_pool_class_init env64)
      (gst_buffer_pool_set_config (gst_buffer_pool_class_init env64)
        (gst_buffer_pool_new mem0) (some (config6 64 4 4 0 0 8))).2
      (some (gst_buffer_pool_get_config
        (gst_buffer_pool_set_config (gst_buffer_pool_class_init env64)
          (gst_buffer_pool_new mem0) (some (config6 64 4 4 0 0 8))).2))).2
      = (gst_buffer_pool_set_config (gst_buffer_pool_class_init env64)
          (gst_buffer_pool_new mem0) (some (config6 64 4 4 0 0 8))).2 :=
  set_config_round_trip env64 mem0 1 [Op.set_config (config6 64 4 4 0 0 8)]
    (gst_buffer_pool_set_config (gst_buffer_pool_class_init env64)
      (gst_buffer_pool_new mem0) (some (config6 64 4 4 0 0 8))).2 rfl (by decide) (by decide)


/-- C15. Zero alignment, run on the code. With (size=100, prefix=16, postfix=8) the
default `alloc_buffer` with `align = 0` returns a buffer whose block is at 4104 and
whose data pointer is 16, the prefix added to `NULL`; with `align = 1` the data
pointer is 4120, block plus prefix. With (size=0, prefix=0, postfix=0) and
`align = 0` it calls `g_malloc`, and with `align = 1` it does not. -/
theorem zero_align_not_normalised :
    default_alloc_buffer env64 (configured_pool env64 (config6 100 0 0 16 8 0)) none none
      = (GST_FLOW_OK, some { malloc_data := 4104, data := 16, size := 100 },
          { configured_pool env64 (config6 100 0 0 16 8 0) with
            mem := { mallocs := 1, unreffed := [] } }) ∧
    default_alloc_buffer env64 (configured_pool env64 (config6 100 0 0 16 8 1)) none none
      = (GST_FLOW_OK, some { malloc_data := 4104, data := 4120, size := 100 },
          { configured_pool env64 (config6 100 0 0 16 8 1) with
            mem := { mallocs := 1, unreffed := [] } }) ∧
    default_alloc_buffer env64 (configured_pool env64 (config6 0 0 0 0 0 0)) none none
      = (GST_FLOW_OK, some { malloc_data := 4104, data := 0, size := 0 },
          { configured_pool env64 (config6 0 0 0 0 0 0) with
            mem := { mallocs := 1, unreffed := [] } }) ∧
    default_alloc_buffer env64 (configured_pool env64 (config6 0 0 0 0 0 1)) none none
      = (GST_FLOW_OK, some gst_buffer_new, configured_pool env64 (config6 0 0 0 0 0 1)) := by
  decide

/-- C16. The aligned base, run on the code of a 64-bit build whose block lies above
4 GiB. With (size=100, prefix=16, postfix=8, align=64) and the block at
`2 ^ 32 + 4104`, the data pointer of the buffer is 4176: the mask `~align`, a
`guint`, has cleared the upper half of the address. `data - prefix` is 4160, below
the block, and not the smallest multiple of 64 at or above it, `2 ^ 32 + 4160`. -/
theorem aligned_base_truncated :
    (default_alloc_buffer env64_high (configured_pool env64_high (config6 100 0 0 16 8 64))
      none none).2.1
      = some { malloc_data := 2 ^ 32 + 4104, data := 4176, size := 100 } ∧
    (4176 - 16 < 2 ^ 32 + 4104) ∧
    (2 ^ 32 + 4160) % 64 = 0 ∧ 2 ^ 32 + 4104 ≤ 2 ^ 32 + 4160 ∧
    2 ^ 32 + 4160 - 64 < 2 ^ 32 + 4104 := by
  decide

/-- C17. The credits after the first activation, run on the code: the new pool
configured with (size=64, min=4, max=4, align=8) and activated holds 4 buffers in
its free list and 3 pending control bytes; `gst_buffer_pool_set_active (TRUE)` has
read a control byte that only `gst_buffer_pool_set_active (FALSE)` writes. -/
theorem credits_after_activation :
    (run (gst_buffer_pool_class_init env64) 1
        [Op.set_config (config6 64 4 4 0 0 8), Op.set_active true]
        (gst_buffer_pool_new mem0)).map
      (fun p => (p.active, p.flushing, p.queue.length, p.poll))
      = some (true, false, 4, 3) := by
  decide


/-- Releases on a pool that is not flushing, with the default hooks: the buffers go
to the tail of the queue in their order, one control byte is written for each. -/
theorem release_buffers_not_flushing (env : Env) (bs : List GstBuffer) :
    ∀ pool : GstBufferPool, pool.flushing = false →
      release_buffers (gst_buffer_pool_class_init env) bs pool
        = { pool with queue := pool.queue ++ bs.map some, poll := pool.poll + bs.length } := by
  induction bs with
  | nil => intro pool _; simp [release_buffers]
  | cons b rest ih =>
    intro pool hf
    rw [release_buffers, release_not_flushing env pool b hf,
      ih { pool with queue := pool.queue ++ [some b], poll := pool.poll + 1 } hf]
    simp
    ring

/-- Acquires on a pool that is not flushing and whose queue holds at least as many
buffers: each returns GST_FLOW_OK with the head of the queue and increments
`outstanding`. -/
theorem acquire_buffers_pop (env : Env) (fuel : Nat) (params : Option GstBufferPoolParams)
    (bs : List GstBuffer) :
    ∀ (pool : GstBufferPool) (rest : List (Option GstBuffer)), pool.flushing = false →
      pool.queue = bs.map some ++ rest →
      acquire_buffers (gst_buffer_pool_class_init env) (fuel + 1) params bs.length pool
        = some (bs.map (fun b => (GST_FLOW_OK, some b)),
            { pool with queue := rest, poll := pool.poll - bs.length,
                        outstanding :=
                          (fun o => gint (o + 1))^[bs.length] pool.outstanding }) := by
  induction bs with
  | nil =>
    intro pool rest _ hq
    simp only [List.map_nil, List.nil_append] at hq
    cases pool
    simp only at hq
    subst hq
    simp [acquire_buffers]
  | cons b bs ih =>
    intro pool rest hf hq
    rw [List.length_cons, acquire_buffers,
      acquire_pop env fuel pool none params b (bs.map some ++ rest) hf (by rw [hq]; rfl)]
    dsimp only
    rw [ih { pool with queue := bs.map some ++ rest, poll := pool.poll - 1,
                       outstanding := gint (pool.outstanding + 1) } rest hf rfl]
    simp only [List.map_cons, Function.iterate_succ, Function.comp_apply, Option.some.injEq,
      Prod.mk.injEq, GstBufferPool.mk.injEq, true_and, and_true, List.length_cons,
      Nat.cast_add, Nat.cast_one]
    ring

/-- C19. Reuse in FIFO order, default hooks: on a pool that is not flushing and whose
free list is empty, after the release of `b1..bn` in that order the next `n`
acquires (whatever their params) return GST_FLOW_OK with `b1..bn` in that order;
they take them from the free list, the memory and so the count of `g_malloc` calls
being what it was, and the free list is empty again; `outstanding` has been
incremented `n` times. -/
theorem fifo_reuse (env : Env) (fuel : Nat) (params : Option GstBufferPoolParams)
    (pool : GstBufferPool) (bs : List GstBuffer)
    (hf : pool.flushing = false) (hq : pool.queue = []) :
    acquire_buffers (gst_buffer_pool_class_init env) (fuel + 1) params bs.length
        (release_buffers (gst_buffer_pool_class_init env) bs pool)
      = some (bs.map (fun b => (GST_FLOW_OK, some b)),
          { pool with outstanding :=
              (fun o => gint (o + 1))^[bs.length] pool.outstanding }) := by
  rw [release_buffers_not_flushing env bs pool hf,
    acquire_buffers_pop env fuel params bs
      { pool with queue := pool.queue ++ bs.map some, poll := pool.poll + bs.length } [] hf
      (by simp [hq])]
  cases pool
  simp only at hq
  subst hq
  simp

/-- Witness of C19: on the pool of the flush scenario with its two buffers handed
out, the release of one buffer followed by an acquire returns exactly that buffer. -/
theorem fifo_reuse_witness :
    acquire_buffers (gst_buffer_pool_class_init env64) 1 none 1
        (release_buffers (gst_buffer_pool_class_init env64)
          [{ malloc_data := 8200, data := 8200, size := 64 }] pool_two_handed_out)
      = some ([(GST_FLOW_OK, some { malloc_data := 8200, data := 8200, size := 64 })],
          { pool_two_handed_out with
            outstanding := gint (pool_two_handed_out.outstanding + 1) }) :=
  fifo_reuse env64 0 none pool_two_handed_out
    [{ malloc_data := 8200, data := 8200, size := 64 }] rfl rfl


/-- With the default hooks a call keeps an active pool configured. -/
theorem step_active_configured (env : Env) (fuel : Nat) (pool p : GstBufferPool) (op : Op)
    (hinv : pool.active = true → pool.configured = true)
    (hs : step (gst_buffer_pool_class_init env) fuel pool op = some p) :
    p.active = true → p.configured = true := by
  cases op with
  | set_config config =>
    rcases step_config env fuel pool p _ hs with ⟨_, _, h3⟩ | ⟨_, _, _, _, h4⟩
    · simp only [step, Option.some.injEq] at hs
      intro hpa
      rw [h3]
      apply hinv
      by_cases hg : pool.active = true
      · exact hg
      · have ha : pool.active = false := by simpa using hg
        by_cases ho : pool.outstanding = 0
        · rw [set_config_default env pool config ha ho] at hs
          rw [← hs] at hpa
          exact absurd (ha.symm.trans hpa) Bool.false_ne_true
        · have hk : gst_buffer_pool_set_config (gst_buffer_pool_class_init env) pool
              (some config) = (false, pool) := by
            unfold gst_buffer_pool_set_config
            simp [ha, ho]
          rw [hk] at hs
          rw [← hs] at hpa
          exact hpa
    · exact fun _ => h4
  | set_active active =>
    simp only [step, Option.some.injEq] at hs
    by_cases h2 : pool.configured = true
    · obtain ⟨q, pl, m, fl, ac, h⟩ := set_active_frame env pool active
      rw [h] at hs
      subst hs
      exact fun _ => h2
    · have hp : p = pool := by
        rw [← hs, gst_buffer_pool_set_active]
        by_cases h1 : pool.active = active
        · rw [if_pos h1]
        · have h3 : (!pool.configured) = true := by simpa using h2
          rw [if_neg h1, if_pos h3]
      rw [hp]
      exact hinv
  | acquire params =>
    simp only [step] at hs
    cases ha : gst_buffer_pool_acquire_buffer (gst_buffer_pool_class_init env) fuel pool none
        params with
    | returned r b p1 =>
      rw [ha] at hs
      simp only [Option.some.injEq] at hs
      subst hs
      obtain ⟨_, _, h3, h4, _⟩ := acquire_frame env fuel pool p1 none b params r ha
      rw [h3, h4]
      exact hinv
    | waiting p1 => rw [ha] at hs; simp at hs
    | out_of_fuel => rw [ha] at hs; simp at hs
  | release buffer =>
    simp only [step, Option.some.injEq] at hs
    subst hs
    obtain ⟨_, _, h3, h4, _⟩ := release_frame env pool (some buffer)
    rw [h3, h4]
    exact hinv

/-- In every state a new pool reaches by calls with the default hooks, an active pool
is configured. -/
theorem run_active_configured (env : Env) (fuel : Nat) (ops : List Op) :
    ∀ pool p : GstBufferPool, (pool.active = true → pool.configured = true) →
      run (gst_buffer_pool_class_init env) fuel ops pool = some p →
      p.active = true → p.configured = true := by
  induction ops with
  | nil =>
    intro pool p hinv hr
    simp only [run, Option.some.injEq] at hr
    subst hr
    exact hinv
  | cons op ops ih =>
    intro pool p hinv hr
    rw [run] at hr
    cases hs : step (gst_buffer_pool_class_init env) fuel pool op with
    | none => rw [hs] at hr; simp at hr
    | some p2 =>
      rw [hs] at hr
      exact ih p2 p (step_active_configured env fuel pool p2 op hinv hs) hr

/-- C20. Effect of deactivation, default hooks: on every active configured pool
`gst_buffer_pool_set_active (FALSE)` returns TRUE, sets `flushing`, clears `active`
and writes exactly one control byte; the free list, `outstanding`, `configured`, the
stored configuration, the private parameters and the memory are what they were.
Every active pool that a new pool reaches by calls with the default hooks is
configured. -/
theorem deactivation_effect (env : Env) (pool : GstBufferPool)
    (ha : pool.active = true) :
    (pool.configured = true →
      gst_buffer_pool_set_active (gst_buffer_pool_class_init env) pool false
        = (true, { pool with flushing := true, poll := pool.poll + 1, active := false })) ∧
    (∀ (mem : GMem) (fuel : Nat) (ops : List Op),
      run (gst_buffer_pool_class_init env) fuel ops (gst_buffer_pool_new mem) = some pool →
      pool.configured = true) := by
  refine ⟨fun hc => set_active_false_default env pool ha hc, ?_⟩
  intro mem fuel ops hr
  exact run_active_configured env fuel ops (gst_buffer_pool_new mem) pool
    (fun h => absurd h Bool.false_ne_true) hr ha

/-- Witness of C20: the activated pool of the preallocation scenario is
deactivated. -/
theorem deactivation_effect_witness :
    gst_buffer_pool_set_active (gst_buffer_pool_class_init env64) pool_four_idle false
      = (true, { pool_four_idle with flushing := true, poll := pool_four_idle.poll + 1,
                                     active := false }) :=
  (deactivation_effect env64 pool_four_idle rfl).1 rfl


/-- A release with the default hooks decrements `outstanding` by 1, as a `gint`, on a
flushing pool and leaves it alone otherwise, whatever the queue holds. -/
theorem release_outstanding (env : Env) (pool : GstBufferPool) (b : GstBuffer) :
    (gst_buffer_pool_release_buffer (gst_buffer_pool_class_init env) pool (some b)).outstanding
      = if pool.flushing = true then gint (pool.outstanding - 1) else pool.outstanding := by
  by_cases hf : pool.flushing = true
  · rw [if_pos hf]
    simp only [gst_buffer_pool_release_buffer, gst_buffer_pool_class_init,
      default_release_buffer, gst_poll_write_control, hf, if_true]
    split
    · obtain ⟨q, pl, m, h⟩ := flush_buffers_loop_frame (some default_free_buffer)
        (gst_atomic_queue_push pool.queue (some b))
        { active := pool.active, flushing := true, configured := pool.configured,
          outstanding := gint (pool.outstanding - 1),
          queue := gst_atomic_queue_push pool.queue (some b), poll := pool.poll + 1,
          config := pool.config, priv := pool.priv, mem := pool.mem }
      rw [flush_buffers, h]
    · rfl
  · have hff : pool.flushing = false := by simpa using hf
    rw [if_neg hf, release_not_flushing env pool b hff]

/-- With the default hooks `gst_buffer_pool_set_config` leaves `outstanding` alone. -/
theorem set_config_outstanding (env : Env) (pool : GstBufferPool) (config : GstStructure) :
    (gst_buffer_pool_set_config (gst_buffer_pool_class_init env) pool
      (some config)).2.outstanding = pool.outstanding := by
  by_cases ha : pool.active = true
  · have hk : gst_buffer_pool_set_config (gst_buffer_pool_class_init env) pool (some config)
        = (false, pool) := by
      unfold gst_buffer_pool_set_config
      simp [ha]
    rw [hk]
  · have haf : pool.active = false := by simpa using ha
    by_cases ho : pool.outstanding = 0
    · rw [set_config_default env pool config haf ho]
    · have hk : gst_buffer_pool_set_config (gst_buffer_pool_class_init env) pool (some config)
          = (false, pool) := by
        unfold gst_buffer_pool_set_config
        simp [haf, ho]
      rw [hk]

/-- One legal call of the client does not lower the number of buffers it has
acquired. -/
theorem client_step_acquired (klass : GstBufferPoolClass) (fuel : Nat) (c c1 : Client)
    (op : Op) (hs : c.step klass fuel op = some c1) : c.acquired ≤ c1.acquired := by
  cases op with
  | set_config config =>
    simp only [Client.step, Option.some.injEq] at hs
    subst hs
    exact le_refl _
  | set_active active =>
    simp only [Client.step, Option.some.injEq] at hs
    subst hs
    exact le_refl _
  | acquire params =>
    simp only [Client.step] at hs
    cases ha : gst_buffer_pool_acquire_buffer klass fuel c.pool none params with
    | returned r b p1 =>
      rw [ha] at hs
      cases b with
      | none =>
        simp only [Option.some.injEq] at hs
        subst hs
        exact le_refl _
      | some b1 =>
        dsimp only at hs
        by_cases hr : r = GST_FLOW_OK
        · rw [if_pos hr] at hs
          simp only [Option.some.injEq] at hs
          subst hs
          exact Nat.le_succ _
        · rw [if_neg hr] at hs
          simp only [Option.some.injEq] at hs
          subst hs
          exact le_refl _
    | waiting p1 => rw [ha] at hs; simp at hs
    | out_of_fuel => rw [ha] at hs; simp at hs
  | release buffer =>
    simp only [Client.step] at hs
    by_cases hm : buffer ∈ c.held
    · rw [if_pos hm] at hs
      simp only [Option.some.injEq] at hs
      subst hs
      exact le_refl _
    · rw [if_neg hm] at hs
      simp at hs

/-- A sequence of legal calls of the client does not lower the number of buffers it
has acquired. -/
theorem client_run_acquired (klass : GstBufferPoolClass) (fuel : Nat) (ops : List Op) :
    ∀ (c c1 : Client), Client.run klass fuel ops c = some c1 → c.acquired ≤ c1.acquired := by
  induction ops with
  | nil =>
    intro c c1 hr
    simp only [Client.run, Option.some.injEq] at hr
    subst hr
    exact le_refl _
  | cons op ops ih =>
    intro c c1 hr
    rw [Client.run] at hr
    cases hs : c.step klass fuel op with
    | none => rw [hs] at hr; simp at hr
    | some c2 =>
      rw [hs] at hr
      exact le_trans (client_step_acquired klass fuel c c2 op hs) (ih c2 c1 hr)

/-- One legal call of the client keeps `outstanding` between the number of buffers
the client holds and the number it has acquired, as long as the latter fits a
`gint`. -/
theorem client_step_held (env : Env) (fuel : Nat) (c c1 : Client) (op : Op)
    (hinv : (c.held.length : Int) ≤ c.pool.outstanding ∧
      c.pool.outstanding ≤ (c.acquired : Int))
    (hs : c.step (gst_buffer_pool_class_init env) fuel op = some c1)
    (hmax : (c1.acquired : Int) ≤ G_MAXINT) :
    (c1.held.length : Int) ≤ c1.pool.outstanding ∧
      c1.pool.outstanding ≤ (c1.acquired : Int) := by
  have hmono := client_step_acquired (gst_buffer_pool_class_init env) fuel c c1 op hs
  have hmono2 : (c.acquired : Int) ≤ (c1.acquired : Int) := by exact_mod_cast hmono
  have hpos : (0 : Int) ≤ (c.held.length : Int) := Int.natCast_nonneg _
  cases op with
  | set_config config =>
    simp only [Client.step, Option.some.injEq] at hs
    subst hs
    dsimp only
    rw [set_config_outstanding]
    exact hinv
  | set_active active =>
    simp only [Client.step, Option.some.injEq] at hs
    subst hs
    obtain ⟨q, pl, m, fl, ac, h⟩ := set_active_frame env c.pool active
    simp only [h]
    exact hinv
  | acquire params =>
    simp only [Client.step] at hs
    cases ha : gst_buffer_pool_acquire_buffer (gst_buffer_pool_class_init env) fuel c.pool none
        params with
    | returned r b p1 =>
      obtain ⟨p0, hd, hp⟩ := acquire_returned env fuel c.pool p1 none b params r ha
      have ho := default_acquire_outstanding env params fuel c.pool none b r p0 hd
      rw [ha] at hs
      cases b with
      | none =>
        simp only [Option.some.injEq] at hs
        subst hs
        rw [hp]
        simpa [ho] using hinv
      | some b1 =>
        dsimp only at hs
        by_cases hr : r = GST_FLOW_OK
        · rw [if_pos hr] at hs
          simp only [Option.some.injEq] at hs
          subst hs
          dsimp only at hmax ⊢
          rw [hp]
          have hg : gint (c.pool.outstanding + 1) = c.pool.outstanding + 1 := by
            apply gint_of_range
            · unfold G_MININT; omega
            · push_cast at hmax; omega
          simp only [hr, ho, ne_eq, not_false_eq_true, and_self, if_true, hg,
            List.length_cons, Nat.cast_add, Nat.cast_one, reduceCtorEq]
          omega
        · rw [if_neg hr] at hs
          simp only [Option.some.injEq] at hs
          subst hs
          rw [hp]
          simpa [ho, hr] using hinv
    | waiting p1 => rw [ha] at hs; simp at hs
    | out_of_fuel => rw [ha] at hs; simp at hs
  | release buffer =>
    simp only [Client.step] at hs
    by_cases hm : buffer ∈ c.held
    · rw [if_pos hm] at hs
      simp only [Option.some.injEq] at hs
      subst hs
      dsimp only at hmax ⊢
      rw [release_outstanding, List.length_erase_of_mem hm]
      have hlen : 0 < c.held.length := List.length_pos_of_mem hm
      have hcast : ((c.held.length - 1 : Nat) : Int) = (c.held.length : Int) - 1 := by
        omega
      rw [hcast]
      by_cases hf : c.pool.flushing = true
      · rw [if_pos hf]
        have hg : gint (c.pool.outstanding - 1) = c.pool.outstanding - 1 := by
          apply gint_of_range
          · unfold G_MININT; omega
          · omega
        rw [hg]
        omega
      · rw [if_neg hf]
        omega
    · rw [if_neg hm] at hs
      simp at hs

/-- A sequence of legal calls of the client keeps `outstanding` between the number
of buffers the client holds and the number it has acquired, as long as the latter
fits a `gint`. -/
theorem client_run_held (env : Env) (fuel : Nat) (ops : List Op) :
    ∀ (c c1 : Client),
      ((c.held.length : Int) ≤ c.pool.outstanding ∧ c.pool.outstanding ≤ (c.acquired : Int)) →
      Client.run (gst_buffer_pool_class_init env) fuel ops c = some c1 →
      (c1.acquired : Int) ≤ G_MAXINT →
      (c1.held.length : Int) ≤ c1.pool.outstanding ∧
        c1.pool.outstanding ≤ (c1.acquired : Int) := by
  induction ops with
  | nil =>
    intro c c1 hinv hr _
    simp only [Client.run, Option.some.injEq] at hr
    subst hr
    exact hinv
  | cons op ops ih =>
    intro c c1 hinv hr hmax
    rw [Client.run] at hr
    cases hs : c.step (gst_buffer_pool_class_init env) fuel op with
    | none => rw [hs] at hr; simp at hr
    | some c2 =>
      rw [hs] at hr
      have hmono := client_run_acquired (gst_buffer_pool_class_init env) fuel ops c2 c1 hr
      have h2 : (c2.acquired : Int) ≤ G_MAXINT :=
        le_trans (by exact_mod_cast hmono) hmax
      exact ih c2 c1 (client_step_held env fuel c c2 op hinv hs h2) hr hmax

/-- As long as the client has acquired at most `G_MAXINT` buffers in all, in every
state it reaches from a new pool by `set_config`, `set_active`, acquire and release
of a buffer it holds, with the default hooks, `outstanding` is at least the number
of buffers the client holds, hence at least 0. -/
theorem outstanding_ge_held_below (env : Env) (mem : GMem) (fuel : Nat) (ops : List Op)
    (c : Client)
    (hr : Client.run (gst_buffer_pool_class_init env) fuel ops
      (Client.start (gst_buffer_pool_new mem)) = some c)
    (hmax : (c.acquired : Int) ≤ G_MAXINT) :
    (c.held.length : Int) ≤ c.pool.outstanding ∧ 0 ≤ c.pool.outstanding := by
  have h := client_run_held env fuel ops (Client.start (gst_buffer_pool_new mem)) c
    ⟨le_refl _, le_refl _⟩ hr hmax
  exact ⟨h.1, le_trans (Int.natCast_nonneg _) h.1⟩

/-- C21. Outstanding after `2 ^ 31` rounds, run on the code: configure
(size=1400, min=0, max=0, prefix=0, postfix=0, align=1), activate, then `2 ^ 31`
rounds of acquire and release of the buffer acquired. Every call is legal, the
client holds no buffer at the end, and `outstanding`, which no release on the active
pool has decremented, has wrapped to `G_MININT`: it is negative. -/
theorem outstanding_wraps :
    ∃ c : Client,
      (Client.run (gst_buffer_pool_class_init env64) 1
          [Op.set_config (config6 1400 0 0 0 0 1), Op.set_active true]
          (Client.start (gst_buffer_pool_new mem0))).bind
        (Client.rounds (gst_buffer_pool_class_init env64) 1 (2147483647 + 1)) = some c ∧
      c.acquired = 2147483648 ∧ c.released = 2147483648 ∧ c.held = [] ∧
      c.pool.outstanding = G_MININT ∧ c.pool.outstanding < 0 := by
  have h1 : (Client.run (gst_buffer_pool_class_init env64) 1
          [Op.set_config (config6 1400 0 0 0 0 1), Op.set_active true]
          (Client.start (gst_buffer_pool_new mem0))).bind
        (Client.round (gst_buffer_pool_class_init env64) 1)
      = some { pool := { active := true, flushing := false, configured := true,
                         outstanding := 1,
                         queue := [some { malloc_data := 4104, data := 4104, size := 1400 }],
                         poll := 0, config := config6 1400 0 0 0 0 1,
                         priv := { min_buffers := 0, max_buffers := 0, size := 1400,
                                   prefix_ := 0, postfix_ := 0, align := 1 },
                         mem := { mallocs := 1, unreffed := [] } },
               held := [], results := [GST_FLOW_OK], acquired := 1, released := 1 } := by
    decide
  have hs : ∀ c, Client.rounds (gst_buffer_pool_class_init env64) 1 (2147483647 + 1) c
      = (Client.round (gst_buffer_pool_class_init env64) 1 c).bind
          (Client.rounds (gst_buffer_pool_class_init env64) 1 2147483647) := by
    intro c
    rw [Client.rounds]
    cases Client.round (gst_buffer_pool_class_init env64) 1 c <;> rfl
  have h2 := rounds_reuse env64 { malloc_data := 4104, data := 4104, size := 1400 } 2147483647
    { pool := { active := true, flushing := false, configured := true,
                outstanding := 1,
                queue := [some { malloc_data := 4104, data := 4104, size := 1400 }],
                poll := 0, config := config6 1400 0 0 0 0 1,
                priv := { min_buffers := 0, max_buffers := 0, size := 1400,
                          prefix_ := 0, postfix_ := 0, align := 1 },
                mem := { mallocs := 1, unreffed := [] } },
      held := [], results := [GST_FLOW_OK], acquired := 1, released := 1 } rfl rfl rfl
    (by decide)
  rw [show Client.rounds (gst_buffer_pool_class_init env64) 1 (2147483647 + 1)
      = fun c => (Client.round (gst_buffer_pool_class_init env64) 1 c).bind
        (Client.rounds (gst_buffer_pool_class_init env64) 1 2147483647) from funext hs,
    ← Option.bind_assoc, h1, Option.some_bind, h2]
  refine ⟨_, rfl, ?_, ?_, rfl, ?_, ?_⟩
  · decide
  · decide
  · decide
  · decide

/-- Below `2 ^ 32` the mask clears the low bits and nothing else. -/
theorem land_mask_low (y k : Nat) (hk : k < 32) (hy : y < 2 ^ 32) :
    Nat.land y (2 ^ 32 - 2 ^ k) = y - y % 2 ^ k := by
  show y &&& (2 ^ 32 - 2 ^ k) = y - y % 2 ^ k
  have h1 : 2 ^ 32 - 2 ^ k = 2 ^ k * (2 ^ (32 - k) - 1) := by
    have : (2 : Nat) ^ 32 = 2 ^ k * 2 ^ (32 - k) := by
      rw [← pow_add]; congr 1; omega
    rw [this, Nat.mul_sub, Nat.mul_one]
  have h2 : y - y % 2 ^ k = 2 ^ k * (y / 2 ^ k) := by
    have := Nat.div_add_mod y (2 ^ k)
    omega
  rw [h1, h2]
  apply Nat.eq_of_testBit_eq
  intro i
  rw [Nat.testBit_and, Nat.testBit_mul_pow_two, Nat.testBit_mul_pow_two,
    Nat.testBit_two_pow_sub_one, ← Nat.shiftRight_eq_div_pow, Nat.testBit_shiftRight]
  by_cases hi : k ≤ i
  · have hki : k + (i - k) = i := by omega
    simp only [hi, decide_True, Bool.true_and, hki]
    by_cases h32 : i < 32
    · have : i - k < 32 - k := by omega
      simp [this]
    · have hyi : y.testBit i = false := by
        apply Nat.testBit_lt_two_pow
        exact lt_of_lt_of_le hy (Nat.pow_le_pow_right (by norm_num) (by omega))
      simp [hyi]
  · simp [hi]


/-- The layout of the default `alloc_buffer` when the block lies below `2 ^ 32`: for
`align = 2 ^ k` and a positive total that does not wrap, the buffer keeps the
address of the block, `data - prefix` is the smallest multiple of `align` at or
above the block, the size field is the configured size, and prefix, payload and
postfix lie inside the block. -/
theorem alloc_layout_low (env : Env) (pool : GstBufferPool) (buffer : Option GstBuffer)
    (params : Option GstBufferPoolParams) (k : Nat) (hw : 4 ≤ env.GLIB_SIZEOF_VOID_P)
    (hk : k < 32) (ha : pool.priv.align = 2 ^ k)
    (hpos : 0 < pool.priv.prefix_ + pool.priv.postfix_ + pool.priv.size + (2 ^ k - 1))
    (hwrap : pool.priv.prefix_ + pool.priv.postfix_ + pool.priv.size + (2 ^ k - 1) < 2 ^ 32)
    (hraw : env.g_malloc pool.mem.mallocs
        (pool.priv.prefix_ + pool.priv.postfix_ + pool.priv.size + (2 ^ k - 1))
      + (pool.priv.prefix_ + pool.priv.postfix_ + pool.priv.size + (2 ^ k - 1)) < 2 ^ 32) :
    ∃ b p1, default_alloc_buffer env pool buffer params = (GST_FLOW_OK, some b, p1) ∧
      b.malloc_data = env.g_malloc pool.mem.mallocs
        (pool.priv.prefix_ + pool.priv.postfix_ + pool.priv.size + (2 ^ k - 1)) ∧
      b.size = pool.priv.size ∧
      pool.priv.prefix_ ≤ b.data ∧
      (b.data - pool.priv.prefix_) % 2 ^ k = 0 ∧
      b.malloc_data ≤ b.data - pool.priv.prefix_ ∧
      b.data - pool.priv.prefix_ < b.malloc_data + 2 ^ k ∧
      b.malloc_data + pool.priv.prefix_ ≤ b.data ∧
      b.data + pool.priv.size + pool.priv.postfix_
        ≤ b.malloc_data + (pool.priv.prefix_ + pool.priv.postfix_ + pool.priv.size
            + (2 ^ k - 1)) := by
  have h1 : 1 ≤ 2 ^ k := Nat.one_le_two_pow
  have hpw : (2 : Nat) ^ 32 ≤ 2 ^ (8 * env.GLIB_SIZEOF_VOID_P) :=
    Nat.pow_le_pow_right (by norm_num) (by omega)
  have hg : guint (pool.priv.prefix_ + pool.priv.postfix_ + pool.priv.size + (2 ^ k - 1))
      = pool.priv.prefix_ + pool.priv.postfix_ + pool.priv.size + (2 ^ k - 1) :=
    Nat.mod_eq_of_lt hwrap
  generalize hT : pool.priv.prefix_ + pool.priv.postfix_ + pool.priv.size + (2 ^ k - 1) = total
    at hpos hwrap hraw hg
  generalize hR : env.g_malloc pool.mem.mallocs total = raw at hraw
  have hptr : ∀ n, n < 2 ^ 32 → guintptr env n = n :=
    fun n hn => Nat.mod_eq_of_lt (lt_of_lt_of_le hn hpw)
  have hy : raw + (2 ^ k - 1) < 2 ^ 32 := by omega
  have hmod := Nat.mod_lt (raw + (2 ^ k - 1)) (Nat.pos_of_ne_zero (by omega : 2 ^ k ≠ 0))
  have hdm := Nat.div_add_mod (raw + (2 ^ k - 1)) (2 ^ k)
  have hal : (raw + (2 ^ k - 1) - (raw + (2 ^ k - 1)) % 2 ^ k) % 2 ^ k = 0 := by
    have : raw + (2 ^ k - 1) - (raw + (2 ^ k - 1)) % 2 ^ k
        = 2 ^ k * ((raw + (2 ^ k - 1)) / 2 ^ k) := by omega
    rw [this, Nat.mul_mod_right]
  unfold default_alloc_buffer
  dsimp only
  rw [ha, guint_align_sub_one k hk, mask_eq k hk, hT, hg, hR, if_pos hpos,
    hptr raw (by omega), hptr _ hy, land_mask_low _ k hk hy, hptr _ (by omega)]
  refine ⟨_, _, rfl, rfl, rfl, ?_, ?_, ?_, ?_, ?_, ?_⟩
  · show pool.priv.prefix_ ≤ _ + pool.priv.prefix_
    omega
  · show (_ + pool.priv.prefix_ - pool.priv.prefix_) % 2 ^ k = 0
    rw [Nat.add_sub_cancel]
    exact hal
  · show raw ≤ _ + pool.priv.prefix_ - pool.priv.prefix_
    rw [Nat.add_sub_cancel]
    omega
  · show _ + pool.priv.prefix_ - pool.priv.prefix_ < raw + 2 ^ k
    rw [Nat.add_sub_cancel]
    omega
  · show raw + pool.priv.prefix_ ≤ _ + pool.priv.prefix_
    omega
  · show _ + pool.priv.prefix_ + pool.priv.size + pool.priv.postfix_ ≤ raw + total
    omega


/-- C22. The layout, run on the code of a 64-bit build whose block lies above 4 GiB.
With (size=100, prefix=16, postfix=8, align=64), a total of 187 bytes, and the block
at `2 ^ 32 + 4104`, acquired from the activated pool, the data pointer of the buffer
is 4176: `backing + prefix <= data` does not hold, and prefix, payload and postfix
lie below the block, outside it. -/
theorem layout_outside_block :
    (Client.run (gst_buffer_pool_class_init env64_high) 1
        [Op.set_config (config6 100 0 0 16 8 64), Op.set_active true, Op.acquire none]
        (Client.start (gst_buffer_pool_new mem0))).map
      (fun c => (c.results, c.held.map (fun b => (b.malloc_data, b.data, b.size,
        decide (b.malloc_data + 16 ≤ b.data),
        decide (b.data + 100 + 8 ≤ b.malloc_data)))))
      = some ([GST_FLOW_OK], [(2 ^ 32 + 4104, 4176, 100, false, true)]) := by
  rfl

end Gst
